import Mathlib

/-!
# Dockhand container auto-update orchestrator — verification development

Shallow embedding of `src/lib/server/scheduler/tasks/container-update.ts`
(runContainerUpdate, scanAndCheckBlock, recreateContainer) together with the
helper functions it imports.  External collaborators (container runtime,
scanner, persistence, notification sink) are modelled as an oracle `Env`
prescribing the result of each call site; the observable world (image tag
store, execution-ledger writes, notifications, issued runtime calls, warning
log events) is threaded explicitly as a `WorldState`.  A call that can throw
in the source returns `Except Err _` here; `try/catch` blocks of the source
become explicit matches on that result.
-/

namespace Dockhand



/-- Error message type for thrown exceptions. -/

abbrev Err := String

/-- Severity bucket counts of one scan summary (`VulnerabilitySeverity`). -/

structure VulnerabilitySeverity where
  critical : Nat
  high : Nat
  medium : Nat
  low : Nat
  negligible : Nat
  unknown : Nat
  deriving DecidableEq, Repr

/-- One scanner's result (`ScanResult`): only fields the gate consults. -/

structure ScanResult where
  scanner : String
  summary : VulnerabilitySeverity
  deriving DecidableEq, Repr

/-- Severity levels, for the threshold-shaped criteria. -/

inductive Severity where
  | critical | high | medium | low | negligible | unknown
  deriving DecidableEq, Repr

/-- Modelled from the spec: the `VulnerabilityCriteria` policy enum lives in
`../../db`, which is not part of the available sources.  Spec §3 / §9 give its
shapes: never block; block on any finding; block on findings at or above a
severity threshold; block only if the new image has more findings than the
currently running image (the source evidences the literals `never` and
`more_than_current`). -/

inductive VulnerabilityCriteria where
  | never
  | any_finding
  | severity_threshold (t : Severity)
  | more_than_current
  deriving DecidableEq, Repr

/-- Verdict of the policy function: blocked flag plus human-readable reason. -/

structure BlockVerdict where
  blocked : Bool
  reason : Option String
  deriving DecidableEq, Repr

/-- Total number of findings in a summary. -/

def totalFindings (s : VulnerabilitySeverity) : Nat :=
  s.critical + s.high + s.medium + s.low + s.negligible + s.unknown

/-- Numeric rank of a severity (higher is worse). -/

def sevRank : Severity → Nat
  | .critical => 5
  | .high => 4
  | .medium => 3
  | .low => 2
  | .negligible => 1
  | .unknown => 0

/-- Count of a single severity bucket. -/

def sevCount (s : VulnerabilitySeverity) : Severity → Nat
  | .critical => s.critical
  | .high => s.high
  | .medium => s.medium
  | .low => s.low
  | .negligible => s.negligible
  | .unknown => s.unknown

/-- Findings at or above a severity threshold. -/

def countAtOrAbove (s : VulnerabilitySeverity) (t : Severity) : Nat :=
  ([Severity.critical, .high, .medium, .low, .negligible, .unknown].filter
    (fun v => sevRank t ≤ sevRank v)).foldl (fun acc v => acc + sevCount s v) 0

/-- Modelled from the spec: `shouldBlockUpdate` is defined in
`./update-utils`, which is not part of the available sources.  Spec §4.4
step 4: pure total map (criteria, new summary, current summary) →
blocked/allowed + reason; §3/§9 fix the criteria shapes, and absence of a
comparison summary must not block (§4.4 step 1). -/

def shouldBlockUpdate (c : VulnerabilityCriteria) (n : VulnerabilitySeverity)
    (cur : Option VulnerabilitySeverity) : BlockVerdict :=
  match c with
  | .never => ⟨false, none⟩
  | .any_finding =>
      if 0 < totalFindings n then ⟨true, some "vulnerabilities found"⟩ else ⟨false, none⟩
  | .severity_threshold t =>
      if 0 < countAtOrAbove n t then ⟨true, some "findings at or above threshold"⟩
      else ⟨false, none⟩
  | .more_than_current =>
      match cur with
      | none => ⟨false, none⟩
      | some cu =>
          if totalFindings cu < totalFindings n then
            ⟨true, some "more findings than current image"⟩
          else ⟨false, none⟩

/-- Modelled from the spec: `combineScanSummaries` is defined in
`./update-utils`, not part of the available sources.  Spec §3: "multiple
scanners for the same image are combined by summation into a single
comparison summary". -/

def combineScanSummaries (rs : List ScanResult) : VulnerabilitySeverity :=
  rs.foldl
    (fun acc r =>
      ⟨acc.critical + r.summary.critical, acc.high + r.summary.high,
       acc.medium + r.summary.medium, acc.low + r.summary.low,
       acc.negligible + r.summary.negligible, acc.unknown + r.summary.unknown⟩)
    ⟨0, 0, 0, 0, 0, 0⟩

/-- An image reference.  Modelled from the spec: the reference helpers
(`parseImageNameAndTag`, `isDigestBasedImage`, `getTempImageTag`) live in
`./update-utils` / `../../docker`, not part of the available sources; the
spec's data model speaks of a "repository:tag pair" versus a "digest-pinned
reference" (glossary), so references are embedded as that sum. -/

inductive ImageRef where
  | tagged (repo tag : String)
  | digest (repo dig : String)
  deriving DecidableEq, Repr

/-- Modelled from the spec (glossary): a digest-pinned reference names
content by digest rather than a mutable tag. -/

def isDigestBasedImage : ImageRef → Bool
  | .tagged _ _ => false
  | .digest _ _ => true

/-- Modelled from the spec: repository and tag of a tagged reference
(`parseImageNameAndTag`). Digest references are never parsed by the
orchestrator (they are skipped first). -/

def parseImageNameAndTag : ImageRef → String × String
  | .tagged r t => (r, t)
  | .digest r d => (r, d)

/-- Modelled from the spec (§4.2 step 4): a temporary, clearly-marked tag
derived deterministically from the original reference. -/

def getTempImageTag : ImageRef → ImageRef
  | .tagged r t => .tagged r (t ++ "-dockhand-temp")
  | .digest r d => .tagged r (d ++ "-dockhand-temp")

/-- Kinds of system container (`isSystemContainer` returns
'dockhand' | 'hawser' | null in the source). -/

inductive SystemKind where
  | dockhand | hawser
  deriving DecidableEq, Repr

/-- Whether the first list is a prefix of the second. -/

def charPrefix : List Char → List Char → Bool
  | [], _ => true
  | _ :: _, [] => false
  | a :: as, b :: bs => a = b && charPrefix as bs

/-- Whether the first list occurs as a contiguous sublist of the second. -/

def containsSub (pat : List Char) : List Char → Bool
  | [] => pat.isEmpty
  | b :: bs => charPrefix pat (b :: bs) || containsSub pat bs

/-- Modelled from the spec (§4.1 step 4): the image belongs to the
orchestrator's own management software or its companion agent
(`isSystemContainer` lives in `./update-utils`, not in the sources). -/

def isSystemContainer (ref : ImageRef) : Option SystemKind :=
  let repo := (parseImageNameAndTag ref).1
  if containsSub "dockhand".toList repo.toList then some .dockhand
  else if containsSub "hawser".toList repo.toList then some .hawser
  else none

/-- JS truthiness of an optional string (empty string is falsy). -/

def truthy : Option String → Bool
  | none => false
  | some s => s ≠ ""

/-- Execution-record statuses (`status ∈ {running, success, failed, skipped}`). -/

inductive ExecStatus where
  | running | success | failed | skipped
  deriving DecidableEq, Repr

/-- Notification kinds sent by the orchestrator. -/

inductive NotifKind where
  | auto_update_success | auto_update_blocked | auto_update_failed
  deriving DecidableEq, Repr

/-- Runtime-client calls issued during a run (the observable call trace). -/

inductive RuntimeCall where
  | list
  | inspect (id : String)
  | registryCheck (ref : ImageRef)
  | pull (ref : ImageRef)
  | tag (imageId : String) (repo tag : String)
  | removeImageById (id : String)
  | removeImageByRef (ref : ImageRef)
  | create
  | stop (id : String)
  | removeContainer (id : String) (force : Bool)
  | connect (network : String)
  | start (id : String)
  deriving DecidableEq, Repr

/-- Warning log events recorded at the source's error-logging sites
(plain informational log lines are not tracked). -/

inductive LogEvent where
  | warnSaveScanFailed
  | warnCurrentScanLookupFailed
  | warnConnectFailed (network : String)
  deriving DecidableEq, Repr

/-- The image tag store of the runtime: (repository, tag) → image id. -/

def TagStore := String × String → Option String

/-- Observable world threaded through a run. -/

structure WorldState where
  tags : TagStore
  createdStatus : Option ExecStatus
  writes : List (Option ExecStatus)
  notifs : List NotifKind
  calls : List RuntimeCall
  logs : List LogEvent

/-- Key of a reference in the tag store. -/

def refKey (ref : ImageRef) : String × String := parseImageNameAndTag ref

/-- Bind a reference to an image id in the tag store. -/

def setTag (ref : ImageRef) (id : String) (s : WorldState) : WorldState :=
  { s with tags := fun k => if k = refKey ref then some id else s.tags k }

/-- Remove every tag binding that points at a given image id (the effect of
removing an image by id; modelled from the spec, `removeTempImage` lives in
`../../docker` which is not part of the available sources). -/

def removeImageById (id : String) (s : WorldState) : WorldState :=
  { s with tags := fun k => if s.tags k = some id then none else s.tags k }

/-- Remove one tag binding (the effect of removing an image by reference;
modelled from the spec, §4.2 step 6: "remove the temporary tag"). -/

def removeImageByRef (ref : ImageRef) (s : WorldState) : WorldState :=
  { s with tags := fun k => if k = refKey ref then none else s.tags k }

/-- Append a runtime call to the trace. -/

def note (c : RuntimeCall) (s : WorldState) : WorldState :=
  { s with calls := s.calls ++ [c] }

/-- Append a warning log event. -/

def addLog (e : LogEvent) (s : WorldState) : WorldState :=
  { s with logs := s.logs ++ [e] }

/-- Container list/find result (`containers.find(c => c.name === name)`). -/

structure ContainerInfo where
  id : String
  deriving DecidableEq, Repr

/-- One network's settings in inspect data (`NetworkSettings.Networks[n]`). -/

structure NetConf where
  aliases : List String
  dnsNames : List String
  ipv4 : Option String
  ipv6 : Option String
  gwPriority : Option Int
  deriving DecidableEq, Repr

/-- Typed inspect payload: the fields `runContainerUpdate` and
`recreateContainer` read from `inspectContainer`'s result. -/

structure InspectData where
  configImage : Option ImageRef
  image : String
  composeProject : Option String
  composeService : Option String
  composeConfigFiles : Option String
  stateRunning : Bool
  networkMode : String
  networks : List (String × NetConf)
  deriving Repr

/-- Scanner settings (`getScannerSettings`): the scanner name. -/

structure ScannerSettings where
  scanner : String
  deriving DecidableEq, Repr

/-- Auto-update schedule setting (`getAutoUpdateSettingById`). -/

structure UpdateSetting where
  vulnerabilityCriteria : Option VulnerabilityCriteria
  deriving DecidableEq, Repr

/-- Result of `checkImageUpdateAvailable`. -/

structure RegistryCheck where
  hasUpdate : Bool
  registryDigest : Option String
  isLocalImage : Bool
  error : Option String
  deriving DecidableEq, Repr

/-- Result of `getStackComposeFile`. -/

structure ComposeFileRes where
  success : Bool
  content : Option String
  deriving DecidableEq, Repr

/-- Result of `pullStackService` / `updateStackService`. -/

structure OpRes where
  success : Bool
  error : Option String
  deriving DecidableEq, Repr

/-- Oracle for every collaborator call site: each field prescribes the
response (value or thrown error) of one call of the source, so one `Env`
fixes one complete behaviour of the collaborators for a run. -/

structure Env where
  createResp : Except Err Unit
  ledgerResp : Nat → Except Err Unit
  notifResp : Nat → Except Err Unit
  lastCheckedResp : Except Err Unit
  listResp : Except Err (Option ContainerInfo)
  inspectResp : Except Err InspectData
  scannerSettingsResp : Except Err ScannerSettings
  updateSettingResp : Except Err (Option UpdateSetting)
  registryResp : Except Err RegistryCheck
  composeFileResp : Except Err ComposeFileRes
  composePullResp : Except Err OpRes
  composePulledId : String
  getIdComposeResp : Except Err Unit
  composeTagRestoreBlockedResp : Except Err Unit
  composeTagRestoreScanErrResp : Except Err Unit
  composeUpResp : Except Err OpRes
  lastUpdatedComposeResp : Except Err Unit
  pullResp : Except Err Unit
  pulledId : String
  getIdStandaloneResp : Except Err Unit
  tagRestoreResp : Except Err Unit
  tagTempResp : Except Err Unit
  tagPromoteResp : Except Err Unit
  removeTempBlockedResp : Except Err Unit
  removeTempScanErrResp : Except Err Unit
  removeTempCleanupResp : Except Err Unit
  lastUpdatedStandaloneResp : Except Err Unit
  scanNewResp : Except Err (List ScanResult)
  saveNewResp : Nat → Except Err Unit
  cachedResp : Except Err (Option VulnerabilitySeverity)
  scanCurrentResp : Except Err (List ScanResult)
  saveCurrentResp : Nat → Except Err Unit
  rListResp : Except Err (Option ContainerInfo)
  rInspectResp : Except Err InspectData
  stopResp : Except Err Unit
  removeResp : Except Err Unit
  createContainerResp : Except Err ContainerInfo
  connectResp : String → Except Err Unit
  startResp : Except Err Unit

/-- `updateScheduleExecution`: a ledger write, indexed by how many writes
happened before; a thrown ledger call performs no write. -/

def ledgerWrite (env : Env) (st : Option ExecStatus) (s : WorldState) :
    Except Err Unit × WorldState :=
  match env.ledgerResp s.writes.length with
  | .ok _ => (.ok (), { s with writes := s.writes ++ [st] })
  | .error e => (.error e, s)

/-- `sendEventNotification`, indexed by how many notifications were sent. -/

def sendNotif (env : Env) (k : NotifKind) (s : WorldState) :
    Except Err Unit × WorldState :=
  match env.notifResp s.notifs.length with
  | .ok _ => (.ok (), { s with notifs := s.notifs ++ [k] })
  | .error e => (.error e, s)

/-- The gate's outcome (`ScanOutcome`). -/

structure ScanOutcomeM where
  blocked : Bool
  reason : Option String
  results : List ScanResult
  summary : Option VulnerabilitySeverity
  deriving Repr

/-- The per-result save loop of `scanAndCheckBlock`: each
`saveVulnerabilityScan` call sits in its own `try/catch`; a failure is
logged as a warning only at the new-image site (`warn = true`), the
current-image site ignores it silently.  `n` saves remain, `i` is the index
of the next one. -/

def runSaves (resp : Nat → Except Err Unit) (warn : Bool) :
    Nat → Nat → WorldState → WorldState
  | 0, _, s => s
  | n + 1, i, s =>
      runSaves resp warn n (i + 1)
        (match resp i with
         | .ok _ => s
         | .error _ => if warn then addLog .warnSaveScanFailed s else s)

/-- The `more_than_current` branch of `scanAndCheckBlock` (source lines
157–201): cached lookup, on-demand scan of the current image, best-effort
saves; any lookup/scan error is caught and logged as a warning. -/

def currentSummaryLookup (env : Env) (c : VulnerabilityCriteria)
    (s : WorldState) : Option VulnerabilitySeverity × WorldState :=
  if c = .more_than_current then
    match env.cachedResp with
    | .error _ => (none, addLog .warnCurrentScanLookupFailed s)
    | .ok (some cu) => (some cu, s)
    | .ok none =>
        match env.scanCurrentResp with
        | .error _ => (none, addLog .warnCurrentScanLookupFailed s)
        | .ok rs =>
            if 0 < rs.length then
              (some (combineScanSummaries rs),
               runSaves env.saveCurrentResp false rs.length 0 s)
            else (none, s)
  else (none, s)

/-- `scanAndCheckBlock` (source lines 111–213): scan the new image, save the
results best-effort, optionally fetch a comparison summary for the current
image, and apply `shouldBlockUpdate`.  An empty scanner-result list is
treated as not blocked. -/

def scanAndCheckBlock (env : Env) (c : VulnerabilityCriteria)
    (s : WorldState) : Except Err ScanOutcomeM × WorldState :=
  match env.scanNewResp with
  | .error e => (.error e, s)
  | .ok rs =>
      if rs.length = 0 then (.ok ⟨false, none, rs, none⟩, s)
      else
        let sum := combineScanSummaries rs
        let s1 := runSaves env.saveNewResp true rs.length 0 s
        let pair := currentSummaryLookup env c s1
        let v := shouldBlockUpdate c sum pair.1
        (.ok ⟨v.blocked, v.reason, rs, some sum⟩, pair.2)

/-- The pure verdict of the gate: `scanAndCheckBlock`'s returned value,
computed without the world state. -/

def scanVerdict (env : Env) (c : VulnerabilityCriteria) :
    Except Err ScanOutcomeM :=
  match env.scanNewResp with
  | .error e => .error e
  | .ok rs =>
      if rs.length = 0 then .ok ⟨false, none, rs, none⟩
      else
        let sum := combineScanSummaries rs
        let cur :=
          if c = .more_than_current then
            match env.cachedResp with
            | .error _ => none
            | .ok (some cu) => some cu
            | .ok none =>
                match env.scanCurrentResp with
                | .error _ => none
                | .ok crs =>
                    if 0 < crs.length then some (combineScanSummaries crs)
                    else none
          else none
        let v := shouldBlockUpdate c sum cur
        .ok ⟨v.blocked, v.reason, rs, some sum⟩

/-- Whether a network is the primary one (source line 843: name equals the
`NetworkMode`, or the bridge/default aliases of mode `bridge`). -/

def isPrimaryNet (primary netName : String) : Bool :=
  netName = primary || (primary = "bridge" && (netName = "bridge" || netName = "default"))

/-- Alias list reapplied to one secondary network (source lines 854–865):
existing aliases (or DNS names) minus the container's own id/short-id, plus
the compose service and `project-service` aliases when compose-owned. -/

def secondaryAliases (contId shortId : String) (project service : Option String)
    (nc : NetConf) : List String :=
  let base := (if 0 < nc.aliases.length then nc.aliases else nc.dnsNames).filter
    (fun a => a ≠ contId && a ≠ shortId)
  if truthy project && truthy service then
    let sv := service.getD ""
    let l1 := if base.contains sv then base else base ++ [sv]
    let ps := project.getD "" ++ "-" ++ sv
    if l1.contains ps then l1 else l1 ++ [ps]
  else base

/-- A captured secondary network to reconnect. -/

structure NetworkInfo where
  name : String
  aliases : List String
  ipv4 : Option String
  ipv6 : Option String
  gwPriority : Option Int
  deriving DecidableEq, Repr

/-- The secondary networks captured before recreation (source lines
839–876): every non-primary network with its aliases, static addresses and
gateway priority (zero priority is dropped). -/

def additionalNetworks (d : InspectData) (contId : String) : List NetworkInfo :=
  let primary := if d.networkMode = "" then "bridge" else d.networkMode
  let shortId := contId.take 12
  (d.networks.filter (fun p => ¬ isPrimaryNet primary p.1)).map (fun p =>
    ⟨p.1, secondaryAliases contId shortId d.composeProject d.composeService p.2,
     p.2.ipv4, p.2.ipv6,
     match p.2.gwPriority with
     | some g => if g ≠ 0 then some g else none
     | none => none⟩)

/-- The reconnection loop (source lines 885–897): each
`connectContainerToNetwork` sits in its own `try/catch`; a failure is logged
as a warning and the loop continues. -/

def connectLoop (env : Env) (nets : List NetworkInfo) (s : WorldState) :
    WorldState :=
  nets.foldl
    (fun acc n =>
      let acc1 := note (.connect n.name) acc
      match env.connectResp n.name with
      | .ok _ => acc1
      | .error _ => addLog (.warnConnectFailed n.name) acc1) s

/-- Body of `recreateContainer`'s single `try` block (source lines 797–905):
find, inspect, stop if running, force-remove, create, reconnect secondary
networks, start if it was running.  `.ok false` is the not-found return,
`.ok true` the completion return; `.error` is a thrown step. -/

def recreateBody (env : Env) (s : WorldState) : Except Err Bool × WorldState :=
  let s0 := note .list s
  match env.rListResp with
  | .error e => (.error e, s0)
  | .ok none => (.ok false, s0)
  | .ok (some cont) =>
    let s1 := note (.inspect cont.id) s0
    match env.rInspectResp with
    | .error e => (.error e, s1)
    | .ok d =>
      let stopStep : Except Err Unit × WorldState :=
        if d.stateRunning then
          match env.stopResp with
          | .error e => (.error e, note (.stop cont.id) s1)
          | .ok _ => (.ok (), note (.stop cont.id) s1)
        else (.ok (), s1)
      match stopStep with
      | (.error e, s2) => (.error e, s2)
      | (.ok _, s2) =>
        let s3 := note (.removeContainer cont.id true) s2
        match env.removeResp with
        | .error e => (.error e, s3)
        | .ok _ =>
          let nets := additionalNetworks d cont.id
          let s4 := note .create s3
          match env.createContainerResp with
          | .error e => (.error e, s4)
          | .ok newCont =>
            let s5 := connectLoop env nets s4
            if d.stateRunning then
              match env.startResp with
              | .error e => (.error e, note (.start newCont.id) s5)
              | .ok _ => (.ok true, note (.start newCont.id) s5)
            else (.ok true, s5)

/-- `recreateContainer` (source lines 792–910): the whole body is guarded by
one `try/catch`; any thrown step yields `false`, so the function never
throws past its boundary. -/

def recreateContainer (env : Env) (s : WorldState) : Bool × WorldState :=
  match recreateBody env s with
  | (.ok b, s1) => (b, s1)
  | (.error _, s1) => (false, s1)

/-- Inspect payload of the standalone example container `web-1`. -/

def d0 : InspectData where
  configImage := some (.tagged "app" "latest")
  image := "sha:aaa"
  composeProject := none
  composeService := none
  composeConfigFiles := none
  stateRunning := true
  networkMode := "bridge"
  networks := [("bridge", ⟨[], [], none, none, none⟩),
               ("net2", ⟨["alias1"], [], none, none, none⟩)]

/-- Baseline collaborator behaviour: every call succeeds; the registry
reports an update (`sha:bbb`), the single scanner finds nothing. -/

def okEnv : Env where
  createResp := .ok ()
  ledgerResp := fun _ => .ok ()
  notifResp := fun _ => .ok ()
  lastCheckedResp := .ok ()
  listResp := .ok (some ⟨"cid1"⟩)
  inspectResp := .ok d0
  scannerSettingsResp := .ok ⟨"trivy"⟩
  updateSettingResp := .ok (some ⟨some .any_finding⟩)
  registryResp := .ok ⟨true, some "sha:bbb", false, none⟩
  composeFileResp := .ok ⟨false, none⟩
  composePullResp := .ok ⟨true, none⟩
  composePulledId := "sha:bbb"
  getIdComposeResp := .ok ()
  composeTagRestoreBlockedResp := .ok ()
  composeTagRestoreScanErrResp := .ok ()
  composeUpResp := .ok ⟨true, none⟩
  lastUpdatedComposeResp := .ok ()
  pullResp := .ok ()
  pulledId := "sha:bbb"
  getIdStandaloneResp := .ok ()
  tagRestoreResp := .ok ()
  tagTempResp := .ok ()
  tagPromoteResp := .ok ()
  removeTempBlockedResp := .ok ()
  removeTempScanErrResp := .ok ()
  removeTempCleanupResp := .ok ()
  lastUpdatedStandaloneResp := .ok ()
  scanNewResp := .ok [⟨"trivy", ⟨0, 0, 0, 0, 0, 0⟩⟩]
  saveNewResp := fun _ => .ok ()
  cachedResp := .ok none
  scanCurrentResp := .ok []
  saveCurrentResp := fun _ => .ok ()
  rListResp := .ok (some ⟨"cid1"⟩)
  rInspectResp := .ok d0
  stopResp := .ok ()
  removeResp := .ok ()
  createContainerResp := .ok ⟨"cid2"⟩
  connectResp := fun _ => .ok ()
  startResp := .ok ()

/-- Initial world: tag `app:latest` resolves to the running image
`sha:aaa`; no record, writes, notifications, calls or logs yet. -/

def w0 : WorldState where
  tags := fun k => if k = ("app", "latest") then some "sha:aaa" else none
  createdStatus := none
  writes := []
  notifs := []
  calls := []
  logs := []

/-- Continuation of the pull/scan phase: either the run already wrote its
terminal status and returned, or control proceeds with a gate outcome. -/

inductive FlowCont where
  | done
  | proceed (outcome : ScanOutcomeM)

/-- Body of the standalone scan `try` (source lines 643–676): gate the new
image; on `blocked` remove the temp-tagged image, write terminal `skipped`
with block details and send the blocked notification. -/

def stdScanTryBody (env : Env) (c : VulnerabilityCriteria) (newImageId : String)
    (s : WorldState) : Except Err FlowCont × WorldState :=
  match scanAndCheckBlock env c s with
  | (.error e, s1) => (.error e, s1)
  | (.ok oc, s1) =>
      if oc.blocked then
        let s2 := note (.removeImageById newImageId) s1
        match env.removeTempBlockedResp with
        | .error e => (.error e, s2)
        | .ok _ =>
          let s3 := removeImageById newImageId s2
          match ledgerWrite env (some .skipped) s3 with
          | (.error e, s4) => (.error e, s4)
          | (.ok _, s4) =>
            match sendNotif env .auto_update_blocked s4 with
            | (.error e, s5) => (.error e, s5)
            | (.ok _, s5) => (.ok .done, s5)
      else (.ok (.proceed oc), s1)

/-- The standalone scan `try/catch` (source lines 643–689): a scan failure
removes the temp image and writes terminal `failed` (no notification);
errors thrown inside that catch propagate to the pull catch. -/

def stdScanStep (env : Env) (c : VulnerabilityCriteria) (newImageId : String)
    (s : WorldState) : Except Err FlowCont × WorldState :=
  match stdScanTryBody env c newImageId s with
  | (.ok r, s1) => (.ok r, s1)
  | (.error _, s1) =>
      let s2 := note (.removeImageById newImageId) s1
      match env.removeTempScanErrResp with
      | .error e => (.error e, s2)
      | .ok _ =>
        let s3 := removeImageById newImageId s2
        match ledgerWrite env (some .failed) s3 with
        | (.error e, s4) => (.error e, s4)
        | (.ok _, s4) => (.ok .done, s4)

/-- Body of the standalone pull `try` (source lines 620–698): pull (which
overwrites the mutable tag), restore the original tag onto the old image,
tag the new image under the temp tag, gate it, then on approval promote it
to the original tag and best-effort remove the temp tag (a removal failure
is silently ignored). -/

def stdPullTryBody (env : Env) (c : VulnerabilityCriteria) (ref : ImageRef)
    (currentImageId : String) (s : WorldState) :
    Except Err FlowCont × WorldState :=
  let tempRef := getTempImageTag ref
  let s0 := note (.pull ref) s
  match env.pullResp with
  | .error e => (.error e, s0)
  | .ok _ =>
    let s1 := setTag ref env.pulledId s0
    match env.getIdStandaloneResp with
    | .error e => (.error e, s1)
    | .ok _ =>
      match s1.tags (refKey ref) with
      | none => (.error "Failed to get new image ID after pull", s1)
      | some newImageId =>
        let s2 := note (.tag currentImageId (refKey ref).1 (refKey ref).2) s1
        match env.tagRestoreResp with
        | .error e => (.error e, s2)
        | .ok _ =>
          let s3 := setTag ref currentImageId s2
          let s4 := note (.tag newImageId (refKey tempRef).1 (refKey tempRef).2) s3
          match env.tagTempResp with
          | .error e => (.error e, s4)
          | .ok _ =>
            let s5 := setTag tempRef newImageId s4
            match stdScanStep env c newImageId s5 with
            | (.error e, s6) => (.error e, s6)
            | (.ok .done, s6) => (.ok .done, s6)
            | (.ok (.proceed oc), s6) =>
              let s7 := note (.tag newImageId (refKey ref).1 (refKey ref).2) s6
              match env.tagPromoteResp with
              | .error e => (.error e, s7)
              | .ok _ =>
                let s8 := setTag ref newImageId s7
                let s9 := note (.removeImageByRef tempRef) s8
                let s10 := match env.removeTempCleanupResp with
                           | .ok _ => removeImageByRef tempRef s9
                           | .error _ => s9
                (.ok (.proceed oc), s10)

/-- The standalone pull `try/catch` (source lines 620–709): any failure in
the pull/tag/scan sequence writes terminal `failed` (no notification). -/

def stdPullStep (env : Env) (c : VulnerabilityCriteria) (ref : ImageRef)
    (currentImageId : String) (s : WorldState) :
    Except Err FlowCont × WorldState :=
  match stdPullTryBody env c ref currentImageId s with
  | (.ok r, s1) => (.ok r, s1)
  | (.error _, s1) =>
      match ledgerWrite env (some .failed) s1 with
      | (.error e, s2) => (.error e, s2)
      | (.ok _, s2) => (.ok .done, s2)

/-- The no-scanning pull (source lines 710–726): plain pull; a pull failure
writes terminal `failed` (no notification). -/

def simplePullStep (env : Env) (ref : ImageRef) (s : WorldState) :
    Except Err FlowCont × WorldState :=
  let s0 := note (.pull ref) s
  match env.pullResp with
  | .ok _ => (.ok (.proceed ⟨false, none, [], none⟩), setTag ref env.pulledId s0)
  | .error _ =>
      match ledgerWrite env (some .failed) s0 with
      | (.error e, s1) => (.error e, s1)
      | (.ok _, s1) => (.ok .done, s1)

/-- The recreation phase (source lines 739–765): recreate the container; on
success update bookkeeping, write terminal `success` and notify; recreation
failure throws to the outer catch. -/

def recreatePhase (env : Env) (s : WorldState) : Except Err Unit × WorldState :=
  match recreateContainer env s with
  | (true, s1) =>
      match env.lastUpdatedStandaloneResp with
      | .error e => (.error e, s1)
      | .ok _ =>
        match ledgerWrite env (some .success) s1 with
        | (.error e, s2) => (.error e, s2)
        | (.ok _, s2) =>
          match sendNotif env .auto_update_success s2 with
          | (.error e, s3) => (.error e, s3)
          | (.ok _, s3) => (.ok (), s3)
  | (false, s1) => (.error "Failed to recreate container", s1)

/-- The standalone flow (source lines 613–765): temp-tag-protected pull when
scanning is enabled, plain pull otherwise, then recreation. -/

def standaloneFlow (env : Env) (c : VulnerabilityCriteria) (scan : Bool)
    (ref : ImageRef) (currentImageId : String) (s : WorldState) :
    Except Err Unit × WorldState :=
  match (if scan && !isDigestBasedImage ref
         then stdPullStep env c ref currentImageId s
         else simplePullStep env ref s) with
  | (.error e, s1) => (.error e, s1)
  | (.ok .done, s1) => (.ok (), s1)
  | (.ok (.proceed _), s1) => recreatePhase env s1

/-- Body of the compose scan `try` (source lines 495–530): gate the new
image; on `blocked` restore the original tag onto the old image, write
terminal `skipped` with block details and notify. -/

def composeScanTryBody (env : Env) (c : VulnerabilityCriteria) (ref : ImageRef)
    (currentImageId : String) (s : WorldState) :
    Except Err FlowCont × WorldState :=
  match scanAndCheckBlock env c s with
  | (.error e, s1) => (.error e, s1)
  | (.ok oc, s1) =>
      if oc.blocked then
        let s2 := note (.tag currentImageId (refKey ref).1 (refKey ref).2) s1
        match env.composeTagRestoreBlockedResp with
        | .error e => (.error e, s2)
        | .ok _ =>
          let s3 := setTag ref currentImageId s2
          match ledgerWrite env (some .skipped) s3 with
          | (.error e, s4) => (.error e, s4)
          | (.ok _, s4) =>
            match sendNotif env .auto_update_blocked s4 with
            | (.error e, s5) => (.error e, s5)
            | (.ok _, s5) => (.ok .done, s5)
      else (.ok (.proceed oc), s1)

/-- The compose scan `try/catch` (source lines 494–545): a scan failure
restores the original tag and writes terminal `failed` (no notification);
errors thrown inside that catch propagate to the compose catch. -/

def composeScanStep (env : Env) (c : VulnerabilityCriteria) (ref : ImageRef)
    (currentImageId : String) (s : WorldState) :
    Except Err FlowCont × WorldState :=
  match composeScanTryBody env c ref currentImageId s with
  | (.ok r, s1) => (.ok r, s1)
  | (.error _, s1) =>
      let s2 := note (.tag currentImageId (refKey ref).1 (refKey ref).2) s1
      match env.composeTagRestoreScanErrResp with
      | .error e => (.error e, s2)
      | .ok _ =>
        let s3 := setTag ref currentImageId s2
        match ledgerWrite env (some .failed) s3 with
        | (.error e, s4) => (.error e, s4)
        | (.ok _, s4) => (.ok .done, s4)

/-- Body of the compose `try` (source lines 476–578): service-scoped compose
pull (which overwrites the tag), optional gate, service-scoped compose up,
bookkeeping, terminal `success` and notification. -/

def composeTryBody (env : Env) (c : VulnerabilityCriteria) (scan : Bool)
    (ref : ImageRef) (currentImageId : String) (s : WorldState) :
    Except Err Unit × WorldState :=
  match env.composePullResp with
  | .error e => (.error e, s)
  | .ok pr =>
    if !pr.success then
      (.error (if truthy pr.error then pr.error.getD "" else "docker compose pull failed"), s)
    else
      let s1 := setTag ref env.composePulledId s
      match env.getIdComposeResp with
      | .error e => (.error e, s1)
      | .ok _ =>
        match s1.tags (refKey ref) with
        | none => (.error "Failed to get new image ID after compose pull", s1)
        | some _ =>
          match (if scan then composeScanStep env c ref currentImageId s1
                 else (.ok (.proceed ⟨false, none, [], none⟩), s1)) with
          | (.error e, s2) => (.error e, s2)
          | (.ok .done, s2) => (.ok (), s2)
          | (.ok (.proceed _), s2) =>
            match env.composeUpResp with
            | .error e => (.error e, s2)
            | .ok ur =>
              if !ur.success then
                (.error (if truthy ur.error then ur.error.getD "" else "docker compose up failed"), s2)
              else
                match env.lastUpdatedComposeResp with
                | .error e => (.error e, s2)
                | .ok _ =>
                  match ledgerWrite env (some .success) s2 with
                  | (.error e, s3) => (.error e, s3)
                  | (.ok _, s3) =>
                    match sendNotif env .auto_update_success s3 with
                    | (.error e, s4) => (.error e, s4)
                    | (.ok _, s4) => (.ok (), s4)

/-- The compose-native path (source lines 476–595): the whole compose update
sits in one `try/catch`; any thrown step writes terminal `failed` and sends
the failure notification. -/

def composePath (env : Env) (c : VulnerabilityCriteria) (scan : Bool)
    (ref : ImageRef) (currentImageId : String) (s : WorldState) :
    Except Err Unit × WorldState :=
  match composeTryBody env c scan ref currentImageId s with
  | (.ok _, s1) => (.ok (), s1)
  | (.error _, s1) =>
      match ledgerWrite env (some .failed) s1 with
      | (.error e, s2) => (.error e, s2)
      | (.ok _, s2) =>
        match sendNotif env .auto_update_failed s2 with
        | (.error e, s3) => (.error e, s3)
        | (.ok _, s3) => (.ok (), s3)

/-- Body of the orchestrator's outer `try` (source lines 327–765):
bookkeeping, container lookup, inspection, exclusion policies, registry
comparison with its three skip conditions, then the compose or standalone
branch. -/

def tryBody (env : Env) (s : WorldState) : Except Err Unit × WorldState :=
  match env.lastCheckedResp with
  | .error e => (.error e, s)
  | .ok _ =>
    let s0 := note .list s
    match env.listResp with
    | .error e => (.error e, s0)
    | .ok none =>
        match ledgerWrite env (some .failed) s0 with
        | (.error e, s1) => (.error e, s1)
        | (.ok _, s1) => (.ok (), s1)
    | .ok (some cont) =>
      let s1 := note (.inspect cont.id) s0
      match env.inspectResp with
      | .error e => (.error e, s1)
      | .ok d =>
        match d.configImage with
        | none =>
            match ledgerWrite env (some .failed) s1 with
            | (.error e, s2) => (.error e, s2)
            | (.ok _, s2) => (.ok (), s2)
        | some ref =>
          match isSystemContainer ref with
          | some _ =>
              match ledgerWrite env (some .skipped) s1 with
              | (.error e, s2) => (.error e, s2)
              | (.ok _, s2) => (.ok (), s2)
          | none =>
            if isDigestBasedImage ref then
              match ledgerWrite env (some .skipped) s1 with
              | (.error e, s2) => (.error e, s2)
              | (.ok _, s2) => (.ok (), s2)
            else
              let currentImageId := d.image
              let isStack := truthy d.composeProject && truthy d.composeService
              match env.scannerSettingsResp with
              | .error e => (.error e, s1)
              | .ok sc =>
                match env.updateSettingResp with
                | .error e => (.error e, s1)
                | .ok us =>
                  let criteria := (us.bind (fun u => u.vulnerabilityCriteria)).getD .never
                  let scan := sc.scanner != "none"
                  let s2 := note (.registryCheck ref) s1
                  match env.registryResp with
                  | .error e => (.error e, s2)
                  | .ok rc =>
                    if rc.isLocalImage then
                      match ledgerWrite env (some .skipped) s2 with
                      | (.error e, s3) => (.error e, s3)
                      | (.ok _, s3) => (.ok (), s3)
                    else if truthy rc.error then
                      match ledgerWrite env (some .skipped) s2 with
                      | (.error e, s3) => (.error e, s3)
                      | (.ok _, s3) => (.ok (), s3)
                    else if !rc.hasUpdate then
                      match ledgerWrite env (some .skipped) s2 with
                      | (.error e, s3) => (.error e, s3)
                      | (.ok _, s3) => (.ok (), s3)
                    else
                      if isStack then
                        match env.composeFileResp with
                        | .error e => (.error e, s2)
                        | .ok cf =>
                          if cf.success then
                            composePath env criteria scan ref currentImageId s2
                          else
                            standaloneFlow env criteria scan ref currentImageId s2
                      else
                        standaloneFlow env criteria scan ref currentImageId s2

/-- `runContainerUpdate` (source lines 299–782): create the execution record
with status `running`, stamp `startedAt`, run the guarded body; the outer
catch writes terminal `failed` and sends the failure notification.  Record
creation and the unguarded `startedAt` write precede the `try`, and the
catch's own writes are unguarded: errors there escape the boundary. -/

def runContainerUpdate (env : Env) (s : WorldState) :
    Except Err Unit × WorldState :=
  match env.createResp with
  | .error e => (.error e, s)
  | .ok _ =>
    let s0 := { s with createdStatus := some ExecStatus.running }
    match ledgerWrite env none s0 with
    | (.error e, s1) => (.error e, s1)
    | (.ok _, s1) =>
      match tryBody env s1 with
      | (.ok _, s2) => (.ok (), s2)
      | (.error _, s2) =>
        match ledgerWrite env (some .failed) s2 with
        | (.error e, s3) => (.error e, s3)
        | (.ok _, s3) =>
          match sendNotif env .auto_update_failed s3 with
          | (.error e, s4) => (.error e, s4)
          | (.ok _, s4) => (.ok (), s4)

/-- Whether a ledger write carries a terminal status. -/

def isTerminalWrite : Option ExecStatus → Bool
  | some .success => true
  | some .failed => true
  | some .skipped => true
  | _ => false

/-- Number of terminal status writes in a write list. -/

def terminalCount (ws : List (Option ExecStatus)) : Nat :=
  (ws.filter isTerminalWrite).length

/-- `okEnv` but one secondary-network reconnection fails. -/

def envConnFail : Env :=
  { okEnv with connectResp := fun n => if n = "net2" then .error "refused" else .ok () }

/-- `okEnv` but `createContainer` throws during recreation. -/

def envCreateFail : Env :=
  { okEnv with createContainerResp := .error "no space" }

/-- `okEnv` but the registry reports no newer digest. -/

def envNoUpdate : Env :=
  { okEnv with registryResp := .ok ⟨false, none, false, none⟩ }

/-- The example container pinned by content digest. -/

def d1 : InspectData :=
  { d0 with configImage := some (.digest "app" "sha256:abc") }

/-- `okEnv` but the container's reference is digest-pinned. -/

def envDigestPinned : Env :=
  { okEnv with inspectResp := .ok d1 }

/-- `okEnv` but the scanner finds two critical vulnerabilities, so the
`any_finding` criteria blocks. -/

def envBlocked : Env :=
  { okEnv with scanNewResp := .ok [⟨"trivy", ⟨2, 0, 0, 0, 0, 0⟩⟩] }

/-- `okEnv` but the best-effort temp-tag removal throws. -/

def envCleanupFail : Env :=
  { okEnv with removeTempCleanupResp := .error "image in use" }

/-- `okEnv` but creating the execution record throws. -/

def envBoundary : Env :=
  { okEnv with createResp := .error "db down" }

/-- `okEnv` but the container is not found. -/

def envNotFound : Env :=
  { okEnv with listResp := .ok none }

/-- `okEnv` but scanning is disabled and the first notification send
throws. -/

def envTwoTerm : Env :=
  { okEnv with scannerSettingsResp := .ok ⟨"none"⟩,
               notifResp := fun n => if n = 0 then .error "smtp down" else .ok () }

/-- `okEnv` but the on-demand current-image scan succeeds and saving its
record throws. -/

def envSilentSave : Env :=
  { okEnv with scanCurrentResp := .ok [⟨"trivy", ⟨0, 0, 0, 0, 0, 0⟩⟩],
               saveCurrentResp := fun _ => .error "db write failed" }

/-- `okEnv` but saving the new image's scan record throws. -/

def envSaveNewFail : Env :=
  { okEnv with saveNewResp := fun _ => .error "disk full" }

/-- `okEnv` but the image pull throws. -/
def envPullFail : Env :=
  { okEnv with pullResp := .error "network unreachable" }

/-- `okEnv` but the scanner throws while scanning the new image. -/
def envScanFail : Env :=
  { okEnv with scanNewResp := .error "scanner crashed" }

lemma currentSummaryLookup_fst (env : Env) (c : VulnerabilityCriteria)
    (s : WorldState) :
    (currentSummaryLookup env c s).1 =
      (if c = .more_than_current then
        match env.cachedResp with
        | .error _ => none
        | .ok (some cu) => some cu
        | .ok none =>
            match env.scanCurrentResp with
            | .error _ => none
            | .ok crs =>
                if 0 < crs.length then some (combineScanSummaries crs)
                else none
       else none) := by
  unfold currentSummaryLookup
  split
  · rcases env.cachedResp with e | cu
    · simp
    · rcases cu with _ | cu
      · rcases h : env.scanCurrentResp with e | crs
        · simp [h]
        · simp only [h]
          split <;> simp
      · simp
  · simp

/-- The value component of `scanAndCheckBlock` is the pure verdict: it does
not depend on the world state. -/
lemma scanAndCheckBlock_fst (env : Env) (c : VulnerabilityCriteria)
    (s : WorldState) :
    (scanAndCheckBlock env c s).1 = scanVerdict env c := by
  unfold scanAndCheckBlock scanVerdict
  rcases env.scanNewResp with e | rs
  · rfl
  · simp only
    split
    · rfl
    · simp [currentSummaryLookup_fst]

lemma runSaves_writes (resp : Nat → Except Err Unit) (warn : Bool)
    (n i : Nat) (s : WorldState) :
    (runSaves resp warn n i s).writes = s.writes := by
  induction n generalizing i s with
  | zero => rfl
  | succ k ih =>
      unfold runSaves
      rcases resp i with _ | _ <;> simp [ih, addLog] <;> split <;> simp [addLog]

lemma runSaves_notifs (resp : Nat → Except Err Unit) (warn : Bool)
    (n i : Nat) (s : WorldState) :
    (runSaves resp warn n i s).notifs = s.notifs := by
  induction n generalizing i s with
  | zero => rfl
  | succ k ih =>
      unfold runSaves
      rcases resp i with _ | _ <;> simp [ih, addLog] <;> split <;> simp [addLog]

lemma runSaves_calls (resp : Nat → Except Err Unit) (warn : Bool)
    (n i : Nat) (s : WorldState) :
    (runSaves resp warn n i s).calls = s.calls := by
  induction n generalizing i s with
  | zero => rfl
  | succ k ih =>
      unfold runSaves
      rcases resp i with _ | _ <;> simp [ih, addLog] <;> split <;> simp [addLog]

lemma runSaves_tags (resp : Nat → Except Err Unit) (warn : Bool)
    (n i : Nat) (s : WorldState) :
    (runSaves resp warn n i s).tags = s.tags := by
  induction n generalizing i s with
  | zero => rfl
  | succ k ih =>
      unfold runSaves
      rcases resp i with _ | _ <;> simp [ih, addLog] <;> split <;> simp [addLog]

lemma currentSummaryLookup_writes (env : Env) (c : VulnerabilityCriteria)
    (s : WorldState) : (currentSummaryLookup env c s).2.writes = s.writes := by
  unfold currentSummaryLookup
  split
  · rcases env.cachedResp with e | cu
    · simp [addLog]
    · rcases cu with _ | cu
      · rcases env.scanCurrentResp with e | crs
        · simp [addLog]
        · simp only
          split <;> simp [runSaves_writes, addLog]
      · simp
  · simp

lemma currentSummaryLookup_notifs (env : Env) (c : VulnerabilityCriteria)
    (s : WorldState) : (currentSummaryLookup env c s).2.notifs = s.notifs := by
  unfold currentSummaryLookup
  split
  · rcases env.cachedResp with e | cu
    · simp [addLog]
    · rcases cu with _ | cu
      · rcases env.scanCurrentResp with e | crs
        · simp [addLog]
        · simp only
          split <;> simp [runSaves_notifs, addLog]
      · simp
  · simp

lemma currentSummaryLookup_calls (env : Env) (c : VulnerabilityCriteria)
    (s : WorldState) : (currentSummaryLookup env c s).2.calls = s.calls := by
  unfold currentSummaryLookup
  split
  · rcases env.cachedResp with e | cu
    · simp [addLog]
    · rcases cu with _ | cu
      · rcases env.scanCurrentResp with e | crs
        · simp [addLog]
        · simp only
          split <;> simp [runSaves_calls, addLog]
      · simp
  · simp

lemma currentSummaryLookup_tags (env : Env) (c : VulnerabilityCriteria)
    (s : WorldState) : (currentSummaryLookup env c s).2.tags = s.tags := by
  unfold currentSummaryLookup
  split
  · rcases env.cachedResp with e | cu
    · simp [addLog]
    · rcases cu with _ | cu
      · rcases env.scanCurrentResp with e | crs
        · simp [addLog]
        · simp only
          split <;> simp [runSaves_tags, addLog]
      · simp
  · simp

/-- `scanAndCheckBlock` performs no ledger writes. -/
lemma scanAndCheckBlock_writes (env : Env) (c : VulnerabilityCriteria)
    (s : WorldState) : (scanAndCheckBlock env c s).2.writes = s.writes := by
  unfold scanAndCheckBlock
  rcases env.scanNewResp with e | rs
  · rfl
  · simp only
    split
    · rfl
    · simp [currentSummaryLookup_writes, runSaves_writes]

/-- `scanAndCheckBlock` sends no notifications. -/
lemma scanAndCheckBlock_notifs (env : Env) (c : VulnerabilityCriteria)
    (s : WorldState) : (scanAndCheckBlock env c s).2.notifs = s.notifs := by
  unfold scanAndCheckBlock
  rcases env.scanNewResp with e | rs
  · rfl
  · simp only
    split
    · rfl
    · simp [currentSummaryLookup_notifs, runSaves_notifs]

/-- `scanAndCheckBlock` issues no runtime calls. -/
lemma scanAndCheckBlock_calls (env : Env) (c : VulnerabilityCriteria)
    (s : WorldState) : (scanAndCheckBlock env c s).2.calls = s.calls := by
  unfold scanAndCheckBlock
  rcases env.scanNewResp with e | rs
  · rfl
  · simp only
    split
    · rfl
    · simp [currentSummaryLookup_calls, runSaves_calls]

/-- `scanAndCheckBlock` leaves the tag store untouched. -/
lemma scanAndCheckBlock_tags (env : Env) (c : VulnerabilityCriteria)
    (s : WorldState) : (scanAndCheckBlock env c s).2.tags = s.tags := by
  unfold scanAndCheckBlock
  rcases env.scanNewResp with e | rs
  · rfl
  · simp only
    split
    · rfl
    · simp [currentSummaryLookup_tags, runSaves_tags]

@[simp] lemma note_writes (c : RuntimeCall) (s : WorldState) :
    (note c s).writes = s.writes := rfl

@[simp] lemma note_notifs (c : RuntimeCall) (s : WorldState) :
    (note c s).notifs = s.notifs := rfl

@[simp] lemma note_tags (c : RuntimeCall) (s : WorldState) :
    (note c s).tags = s.tags := rfl

@[simp] lemma note_logs (c : RuntimeCall) (s : WorldState) :
    (note c s).logs = s.logs := rfl

@[simp] lemma note_createdStatus (c : RuntimeCall) (s : WorldState) :
    (note c s).createdStatus = s.createdStatus := rfl

@[simp] lemma note_calls (c : RuntimeCall) (s : WorldState) :
    (note c s).calls = s.calls ++ [c] := rfl

@[simp] lemma addLog_writes (e : LogEvent) (s : WorldState) :
    (addLog e s).writes = s.writes := rfl

@[simp] lemma addLog_notifs (e : LogEvent) (s : WorldState) :
    (addLog e s).notifs = s.notifs := rfl

@[simp] lemma addLog_tags (e : LogEvent) (s : WorldState) :
    (addLog e s).tags = s.tags := rfl

@[simp] lemma addLog_calls (e : LogEvent) (s : WorldState) :
    (addLog e s).calls = s.calls := rfl

@[simp] lemma addLog_logs (e : LogEvent) (s : WorldState) :
    (addLog e s).logs = s.logs ++ [e] := rfl

@[simp] lemma setTag_writes (r : ImageRef) (id : String) (s : WorldState) :
    (setTag r id s).writes = s.writes := rfl

@[simp] lemma setTag_notifs (r : ImageRef) (id : String) (s : WorldState) :
    (setTag r id s).notifs = s.notifs := rfl

@[simp] lemma setTag_calls (r : ImageRef) (id : String) (s : WorldState) :
    (setTag r id s).calls = s.calls := rfl

@[simp] lemma setTag_logs (r : ImageRef) (id : String) (s : WorldState) :
    (setTag r id s).logs = s.logs := rfl

@[simp] lemma removeImageById_writes (id : String) (s : WorldState) :
    (removeImageById id s).writes = s.writes := rfl

@[simp] lemma removeImageById_notifs (id : String) (s : WorldState) :
    (removeImageById id s).notifs = s.notifs := rfl

@[simp] lemma removeImageById_calls (id : String) (s : WorldState) :
    (removeImageById id s).calls = s.calls := rfl

@[simp] lemma removeImageById_logs (id : String) (s : WorldState) :
    (removeImageById id s).logs = s.logs := rfl

@[simp] lemma removeImageByRef_writes (r : ImageRef) (s : WorldState) :
    (removeImageByRef r s).writes = s.writes := rfl

@[simp] lemma removeImageByRef_notifs (r : ImageRef) (s : WorldState) :
    (removeImageByRef r s).notifs = s.notifs := rfl

@[simp] lemma removeImageByRef_calls (r : ImageRef) (s : WorldState) :
    (removeImageByRef r s).calls = s.calls := rfl

@[simp] lemma removeImageByRef_logs (r : ImageRef) (s : WorldState) :
    (removeImageByRef r s).logs = s.logs := rfl

lemma connectLoop_cons (env : Env) (n : NetworkInfo) (ns : List NetworkInfo)
    (s : WorldState) :
    connectLoop env (n :: ns) s =
      connectLoop env ns
        (match env.connectResp n.name with
         | .ok _ => note (.connect n.name) s
         | .error _ => addLog (.warnConnectFailed n.name) (note (.connect n.name) s)) := by
  rcases h : env.connectResp n.name with e | _ <;> simp [connectLoop, h]

lemma connectLoop_writes (env : Env) (nets : List NetworkInfo) (s : WorldState) :
    (connectLoop env nets s).writes = s.writes := by
  induction nets generalizing s with
  | nil => rfl
  | cons n ns ih =>
      rw [connectLoop_cons]
      rcases env.connectResp n.name with e | _ <;> simp [ih]

lemma connectLoop_notifs (env : Env) (nets : List NetworkInfo) (s : WorldState) :
    (connectLoop env nets s).notifs = s.notifs := by
  induction nets generalizing s with
  | nil => rfl
  | cons n ns ih =>
      rw [connectLoop_cons]
      rcases env.connectResp n.name with e | _ <;> simp [ih]

lemma connectLoop_tags (env : Env) (nets : List NetworkInfo) (s : WorldState) :
    (connectLoop env nets s).tags = s.tags := by
  induction nets generalizing s with
  | nil => rfl
  | cons n ns ih =>
      rw [connectLoop_cons]
      rcases env.connectResp n.name with e | _ <;> simp [ih]

lemma connectLoop_logs_mono (env : Env) (nets : List NetworkInfo)
    (s : WorldState) (e : LogEvent) (h : e ∈ s.logs) :
    e ∈ (connectLoop env nets s).logs := by
  induction nets generalizing s with
  | nil => exact h
  | cons n ns ih =>
      rw [connectLoop_cons]
      rcases env.connectResp n.name with er | _
      · exact ih _ (by simp [h])
      · exact ih _ (by simp [h])

/-- A reconnection failure is logged as a warning. -/
lemma connectLoop_warn (env : Env) (nets : List NetworkInfo) (s : WorldState)
    (n : NetworkInfo) (msg : Err) (hn : n ∈ nets)
    (he : env.connectResp n.name = .error msg) :
    LogEvent.warnConnectFailed n.name ∈ (connectLoop env nets s).logs := by
  induction nets generalizing s with
  | nil => cases hn
  | cons m ms ih =>
      rw [connectLoop_cons]
      rcases List.mem_cons.mp hn with hn1 | hn1
      · subst hn1
        rw [he]
        exact connectLoop_logs_mono _ _ _ _ (by simp)
      · rcases env.connectResp m.name with er | _
        · exact ih _ hn1
        · exact ih _ hn1

lemma recreateContainer_writes (env : Env) (s : WorldState) :
    (recreateContainer env s).2.writes = s.writes := by
  unfold recreateContainer recreateBody
  rcases env.rListResp with e | c
  · simp
  · rcases c with _ | cont
    · simp
    · rcases env.rInspectResp with e | d
      · simp
      · simp only
        by_cases hr : d.stateRunning <;>
          rcases env.stopResp with e | _ <;>
            rcases env.removeResp with e | _ <;>
              rcases env.createContainerResp with e | nc <;>
                rcases env.startResp with e | _ <;>
                  simp [hr, connectLoop_writes]

lemma recreateContainer_notifs (env : Env) (s : WorldState) :
    (recreateContainer env s).2.notifs = s.notifs := by
  unfold recreateContainer recreateBody
  rcases env.rListResp with e | c
  · simp
  · rcases c with _ | cont
    · simp
    · rcases env.rInspectResp with e | d
      · simp
      · simp only
        by_cases hr : d.stateRunning <;>
          rcases env.stopResp with e | _ <;>
            rcases env.removeResp with e | _ <;>
              rcases env.createContainerResp with e | nc <;>
                rcases env.startResp with e | _ <;>
                  simp [hr, connectLoop_notifs]

lemma recreateContainer_tags (env : Env) (s : WorldState) :
    (recreateContainer env s).2.tags = s.tags := by
  unfold recreateContainer recreateBody
  rcases env.rListResp with e | c
  · simp
  · rcases c with _ | cont
    · simp
    · rcases env.rInspectResp with e | d
      · simp
      · simp only
        by_cases hr : d.stateRunning <;>
          rcases env.stopResp with e | _ <;>
            rcases env.removeResp with e | _ <;>
              rcases env.createContainerResp with e | nc <;>
                rcases env.startResp with e | _ <;>
                  simp [hr, connectLoop_tags]

lemma runSaves_logs_mono (resp : Nat → Except Err Unit) (warn : Bool)
    (n i : Nat) (s : WorldState) (e : LogEvent) (h : e ∈ s.logs) :
    e ∈ (runSaves resp warn n i s).logs := by
  induction n generalizing i s with
  | zero => exact h
  | succ k ih =>
      unfold runSaves
      rcases hri : resp i with er | u
      · simp only [hri]
        split
        · exact ih _ _ (by simp [h])
        · exact ih _ _ h
      · simp only [hri]
        exact ih _ _ h

lemma runSaves_warn (resp : Nat → Except Err Unit) (j : Nat) (msg : Err)
    (he : resp j = .error msg) :
    ∀ (n i : Nat) (s : WorldState), i ≤ j → j < i + n →
      LogEvent.warnSaveScanFailed ∈ (runSaves resp true n i s).logs := by
  intro n
  induction n with
  | zero => intro i s h1 h2; omega
  | succ k ih =>
      intro i s h1 h2
      unfold runSaves
      by_cases hj : j = i
      · subst hj
        simp only [he]
        exact runSaves_logs_mono _ _ _ _ _ _ (by simp)
      · have hij : i + 1 ≤ j := by omega
        rcases hri : resp i with er | u
        · simp only [hri]
          exact ih (i + 1) _ hij (by omega)
        · simp only [hri]
          exact ih (i + 1) _ hij (by omega)

lemma currentSummaryLookup_logs_mono (env : Env) (c : VulnerabilityCriteria)
    (s : WorldState) (e : LogEvent) (h : e ∈ s.logs) :
    e ∈ (currentSummaryLookup env c s).2.logs := by
  unfold currentSummaryLookup
  split
  · rcases env.cachedResp with er | cu
    · simpa using .inl h
    · rcases cu with _ | cu
      · rcases env.scanCurrentResp with er | crs
        · simpa using .inl h
        · simp only
          split
          · exact runSaves_logs_mono _ _ _ _ _ _ h
          · exact h
      · exact h
  · exact h

/-- C5.  The Vulnerability Gate's policy decision is deterministic, pure and
total: evaluating `shouldBlockUpdate` twice on identical inputs gives the
same verdict, and for every criteria value and pair of summaries it returns
a definite blocked/allowed verdict (totality is by construction of the
shallow embedding: the function is a total Lean map, so it cannot throw). -/
theorem shouldBlockUpdate_pure_total (c : VulnerabilityCriteria)
    (n : VulnerabilitySeverity) (cur : Option VulnerabilitySeverity) :
    shouldBlockUpdate c n cur = shouldBlockUpdate c n cur ∧
    ∃ v : BlockVerdict, shouldBlockUpdate c n cur = v ∧
      (v.blocked = true ∨ v.blocked = false) := by
  refine ⟨rfl, shouldBlockUpdate c n cur, rfl, ?_⟩
  cases (shouldBlockUpdate c n cur).blocked <;> simp

/-- C10 (amended).  Scan-history persistence is advisory to the gate
verdict: the verdict (including whether the gate throws) is unchanged under
any behaviour of the save collaborator, and a failing save of the new
image's records is logged as a warning; a failing save of the current
image's on-demand records is caught but silently ignored. -/
theorem scanAndCheckBlock_save_advisory (env : Env) (c : VulnerabilityCriteria)
    (s : WorldState) (f g : Nat → Except Err Unit) :
    (scanAndCheckBlock { env with saveNewResp := f, saveCurrentResp := g } c s).1 =
      (scanAndCheckBlock env c s).1 ∧
    (∀ rs j msg, env.scanNewResp = .ok rs → j < rs.length →
      env.saveNewResp j = .error msg →
      LogEvent.warnSaveScanFailed ∈ (scanAndCheckBlock env c s).2.logs) := by
  constructor
  · rw [scanAndCheckBlock_fst, scanAndCheckBlock_fst]
    rfl
  · intro rs j msg h1 h2 h3
    unfold scanAndCheckBlock
    rw [h1]
    simp only
    rw [if_neg (by omega)]
    exact currentSummaryLookup_logs_mono _ _ _ _
      (runSaves_warn _ j msg h3 rs.length 0 _ (Nat.zero_le j) (by omega))

/-- C10 (counterexample).  A failing save of the current image's on-demand
scan record is caught (the gate still returns its verdict) but, contrary to
the claim, it is not logged: no save warning appears in the log. -/
theorem scanAndCheckBlock_silent_save_cex :
    (scanAndCheckBlock envSilentSave .more_than_current w0).1 =
      .ok ⟨false, none, [⟨"trivy", ⟨0, 0, 0, 0, 0, 0⟩⟩], some ⟨0, 0, 0, 0, 0, 0⟩⟩ ∧
    envSilentSave.saveCurrentResp 0 = .error "db write failed" ∧
    LogEvent.warnSaveScanFailed ∉
      (scanAndCheckBlock envSilentSave .more_than_current w0).2.logs := by
  refine ⟨rfl, rfl, ?_⟩
  decide

theorem scanAndCheckBlock_save_advisory_witness :
    (scanAndCheckBlock
        { envSaveNewFail with
            saveNewResp := fun _ => Except.ok ()
            saveCurrentResp := fun _ => Except.ok () } .any_finding w0).1 =
      (scanAndCheckBlock envSaveNewFail .any_finding w0).1 ∧
    LogEvent.warnSaveScanFailed ∈
      (scanAndCheckBlock envSaveNewFail .any_finding w0).2.logs := by
  have h := scanAndCheckBlock_save_advisory envSaveNewFail .any_finding w0
    (fun _ => .ok ()) (fun _ => .ok ())
  exact ⟨h.1, h.2 [⟨"trivy", ⟨0, 0, 0, 0, 0, 0⟩⟩] 0 "disk full" rfl (by decide) rfl⟩

/-- C8.  `recreate(containerName)` returns `false` — and, by the catch-all
`try/catch` embedded in its definition, never throws past its boundary — on
any fatal step (container not found, create failure), returns `true` on
completion, and a failure to reconnect any single secondary network (the
`connectResp` behaviour is unconstrained in the completion case) is logged
as a warning without changing the result from `true`. -/
theorem recreateContainer_error_contract (env : Env) (s : WorldState) :
    ((recreateContainer env s).1 = true ∨ (recreateContainer env s).1 = false) ∧
    (env.rListResp = .ok none → (recreateContainer env s).1 = false) ∧
    (∀ cont d e, env.rListResp = .ok (some cont) → env.rInspectResp = .ok d →
      env.stopResp = .ok () → env.removeResp = .ok () →
      env.createContainerResp = .error e →
      (recreateContainer env s).1 = false) ∧
    (∀ cont d nc, env.rListResp = .ok (some cont) → env.rInspectResp = .ok d →
      env.stopResp = .ok () → env.removeResp = .ok () →
      env.createContainerResp = .ok nc → env.startResp = .ok () →
      (recreateContainer env s).1 = true ∧
      ∀ n msg, n ∈ additionalNetworks d cont.id →
        env.connectResp n.name = .error msg →
        LogEvent.warnConnectFailed n.name ∈ (recreateContainer env s).2.logs) := by
  refine ⟨?_, ?_, ?_, ?_⟩
  · cases (recreateContainer env s).1 <;> simp
  · intro h
    unfold recreateContainer recreateBody
    rw [h]
  · intro cont d e h1 h2 h3 h4 h5
    unfold recreateContainer recreateBody
    rw [h1, h2]
    by_cases hr : d.stateRunning <;> simp [hr, h3, h4, h5]
  · intro cont d nc h1 h2 h3 h4 h5 h6
    unfold recreateContainer recreateBody
    rw [h1, h2]
    by_cases hr : d.stateRunning
    · simp only [hr, h3, h4, h5, h6, if_true]
      refine ⟨by simp, ?_⟩
      intro n msg hn he
      simpa using connectLoop_warn env _ _ n msg hn he
    · simp only [hr, h4, h5, h6, if_false, Bool.false_eq_true]
      refine ⟨by simp, ?_⟩
      intro n msg hn he
      simpa using connectLoop_warn env _ _ n msg hn he

theorem recreateContainer_error_contract_witness :
    (recreateContainer envConnFail w0).1 = true ∧
    LogEvent.warnConnectFailed "net2" ∈ (recreateContainer envConnFail w0).2.logs := by
  have h := (recreateContainer_error_contract envConnFail w0).2.2.2
    ⟨"cid1"⟩ d0 ⟨"cid2"⟩ rfl rfl rfl rfl rfl rfl
  exact ⟨h.1, h.2 ⟨"net2", ["alias1"], none, none, none⟩ "refused" (by decide) rfl⟩

/-- C9.  Recreation is not atomic: when the container exists the old
container is stopped (when running) and force-removed before the new one is
created, so a `createContainer` failure leaves the function returning
`false` with the original container already deleted and no restoration
attempted — the call trace ends at the failed create. -/
theorem recreateContainer_destructive_order (env : Env) (s : WorldState)
    (cont : ContainerInfo) (d : InspectData) (e : Err)
    (h1 : env.rListResp = .ok (some cont)) (h2 : env.rInspectResp = .ok d)
    (h3 : env.stopResp = .ok ()) (h4 : env.removeResp = .ok ())
    (h5 : env.createContainerResp = .error e) :
    (recreateContainer env s).1 = false ∧
    (recreateContainer env s).2.calls =
      s.calls ++ [.list, .inspect cont.id] ++
        (if d.stateRunning then [RuntimeCall.stop cont.id] else []) ++
        [.removeContainer cont.id true, .create] := by
  unfold recreateContainer recreateBody
  rw [h1, h2]
  by_cases hr : d.stateRunning <;> simp [hr, h3, h4, h5]

theorem recreateContainer_destructive_order_witness :
    (recreateContainer envCreateFail w0).1 = false ∧
    (recreateContainer envCreateFail w0).2.calls =
      [.list, .inspect "cid1", .stop "cid1", .removeContainer "cid1" true, .create] := by
  have h := recreateContainer_destructive_order envCreateFail w0
    ⟨"cid1"⟩ d0 "no space" rfl rfl rfl rfl rfl
  exact ⟨h.1, by rw [h.2]; decide⟩

/-- C6.  When the registry comparison reports no update (and no error, and
not a local image), the run terminates with terminal status `skipped`, and
the runtime call trace is exactly list/inspect/registry-check: no pull, tag
or create call is ever issued during that run. -/
theorem noUpdate_skipped_no_mutation (env : Env) (s : WorldState)
    (cont : ContainerInfo) (d : InspectData) (ref : ImageRef)
    (sc : ScannerSettings) (us : Option UpdateSetting) (rc : RegistryCheck)
    (hc : env.createResp = .ok ())
    (hld : ∀ n, env.ledgerResp n = .ok ())
    (hlast : env.lastCheckedResp = .ok ())
    (hlist : env.listResp = .ok (some cont))
    (hins : env.inspectResp = .ok d)
    (himg : d.configImage = some ref)
    (hsys : isSystemContainer ref = none)
    (hdig : isDigestBasedImage ref = false)
    (hsc : env.scannerSettingsResp = .ok sc)
    (hus : env.updateSettingResp = .ok us)
    (hrc : env.registryResp = .ok rc)
    (hlocal : rc.isLocalImage = false)
    (herr : truthy rc.error = false)
    (hupd : rc.hasUpdate = false) :
    (runContainerUpdate env s).1 = .ok () ∧
    (runContainerUpdate env s).2.writes = s.writes ++ [none, some .skipped] ∧
    (runContainerUpdate env s).2.calls =
      s.calls ++ [.list, .inspect cont.id, .registryCheck ref] := by
  unfold runContainerUpdate tryBody ledgerWrite
  simp [hc, hld, hlast, hlist, hins, himg, hsys, hdig, hsc, hus, hrc, hlocal,
    herr, hupd]

theorem noUpdate_skipped_no_mutation_witness :
    (runContainerUpdate envNoUpdate w0).1 = .ok () ∧
    (runContainerUpdate envNoUpdate w0).2.writes = [none, some .skipped] ∧
    (runContainerUpdate envNoUpdate w0).2.calls =
      [.list, .inspect "cid1", .registryCheck (.tagged "app" "latest")] := by
  have h := noUpdate_skipped_no_mutation envNoUpdate w0 ⟨"cid1"⟩ d0
    (.tagged "app" "latest") ⟨"trivy"⟩ (some ⟨some .any_finding⟩)
    ⟨false, none, false, none⟩ rfl (fun _ => rfl) rfl rfl rfl rfl (by decide)
    rfl rfl rfl rfl rfl rfl rfl
  simpa [w0] using h

/-- C7.  A digest-pinned image reference terminates the run with terminal
status `skipped` before any registry query: the call trace is exactly
list/inspect, with no registry-check call. -/
theorem digestPinned_skipped_before_registry (env : Env) (s : WorldState)
    (cont : ContainerInfo) (d : InspectData) (ref : ImageRef)
    (hc : env.createResp = .ok ())
    (hld : ∀ n, env.ledgerResp n = .ok ())
    (hlast : env.lastCheckedResp = .ok ())
    (hlist : env.listResp = .ok (some cont))
    (hins : env.inspectResp = .ok d)
    (himg : d.configImage = some ref)
    (hsys : isSystemContainer ref = none)
    (hdig : isDigestBasedImage ref = true) :
    (runContainerUpdate env s).1 = .ok () ∧
    (runContainerUpdate env s).2.writes = s.writes ++ [none, some .skipped] ∧
    (runContainerUpdate env s).2.calls = s.calls ++ [.list, .inspect cont.id] := by
  unfold runContainerUpdate tryBody ledgerWrite
  simp [hc, hld, hlast, hlist, hins, himg, hsys, hdig]

theorem digestPinned_skipped_before_registry_witness :
    (runContainerUpdate envDigestPinned w0).1 = .ok () ∧
    (runContainerUpdate envDigestPinned w0).2.writes = [none, some .skipped] ∧
    (runContainerUpdate envDigestPinned w0).2.calls = [.list, .inspect "cid1"] := by
  have h := digestPinned_skipped_before_registry envDigestPinned w0 ⟨"cid1"⟩ d1
    (.digest "app" "sha256:abc") rfl (fun _ => rfl) rfl rfl rfl rfl (by decide) rfl
  simpa [w0] using h

lemma tag_ne_temp (t : String) : t ≠ t ++ "-dockhand-temp" := by
  intro h
  have h2 := congrArg String.length h
  rw [String.length_append] at h2
  have h3 : "-dockhand-temp".length = 14 := rfl
  omega

lemma refKey_temp_ne (r t : String) :
    refKey (ImageRef.tagged r t) ≠ refKey (getTempImageTag (.tagged r t)) := by
  unfold refKey getTempImageTag parseImageNameAndTag
  intro h
  exact tag_ne_temp t (congrArg Prod.snd h)

lemma setTag_self (ref : ImageRef) (id : String) (s : WorldState) :
    (setTag ref id s).tags (refKey ref) = some id := by
  simp [setTag]

lemma setTag_other (ref : ImageRef) (id : String) (s : WorldState)
    (k : String × String) (h : k ≠ refKey ref) :
    (setTag ref id s).tags k = s.tags k := by
  simp [setTag, h]

/-- The standalone scan step on a blocked verdict: removes the temp-tagged
image by id, writes terminal `skipped`, sends the blocked notification. -/
lemma stdScanStep_blocked (env : Env) (c : VulnerabilityCriteria)
    (newId : String) (s : WorldState) (oc : ScanOutcomeM)
    (hsv : scanVerdict env c = .ok oc) (hb : oc.blocked = true)
    (hrm : env.removeTempBlockedResp = .ok ())
    (hld : ∀ n, env.ledgerResp n = .ok ())
    (hnt : ∀ n, env.notifResp n = .ok ()) :
    ∃ s', stdScanStep env c newId s = (.ok .done, s') ∧
      s'.tags = (fun k => if s.tags k = some newId then none else s.tags k) ∧
      s'.writes = s.writes ++ [some .skipped] ∧
      s'.notifs = s.notifs ++ [.auto_update_blocked] := by
  have h1 : (scanAndCheckBlock env c s).1 = .ok oc := by
    rw [scanAndCheckBlock_fst, hsv]
  have ht := scanAndCheckBlock_tags env c s
  have hw := scanAndCheckBlock_writes env c s
  have hn := scanAndCheckBlock_notifs env c s
  unfold stdScanStep stdScanTryBody
  rcases hp : scanAndCheckBlock env c s with ⟨v, st⟩
  rw [hp] at h1 ht hw hn
  simp only at h1 ht hw hn
  subst h1
  simp only [hb, if_true, hrm, ledgerWrite, sendNotif, hld, hnt]
  refine ⟨_, rfl, ?_, ?_, ?_⟩
  · funext k
    simp [removeImageById, ht]
  · simp [hw]
  · simp [hn]

/-- The standalone pull step on a blocked verdict: the original tag is
restored to the old image id and stays there; terminal `skipped` plus the
blocked notification are emitted. -/
lemma stdPullStep_blocked (env : Env) (c : VulnerabilityCriteria)
    (r t : String) (cur : String) (s : WorldState) (oc : ScanOutcomeM)
    (hpull : env.pullResp = .ok ())
    (hgid : env.getIdStandaloneResp = .ok ())
    (htr : env.tagRestoreResp = .ok ())
    (htt : env.tagTempResp = .ok ())
    (hsv : scanVerdict env c = .ok oc) (hb : oc.blocked = true)
    (hrm : env.removeTempBlockedResp = .ok ())
    (hld : ∀ n, env.ledgerResp n = .ok ())
    (hnt : ∀ n, env.notifResp n = .ok ())
    (hne : env.pulledId ≠ cur) :
    ∃ s', stdPullStep env c (.tagged r t) cur s = (.ok .done, s') ∧
      s'.tags (refKey (.tagged r t)) = some cur ∧
      s'.writes = s.writes ++ [some .skipped] ∧
      s'.notifs = s.notifs ++ [.auto_update_blocked] := by
  unfold stdPullStep stdPullTryBody
  simp only [hpull, hgid, htr, htt, setTag_self]
  set s5 := setTag (getTempImageTag (.tagged r t)) env.pulledId
    (note (.tag env.pulledId (refKey (getTempImageTag (.tagged r t))).1
        (refKey (getTempImageTag (.tagged r t))).2)
      (setTag (.tagged r t) cur
        (note (.tag cur (refKey (.tagged r t)).1 (refKey (.tagged r t)).2)
          (setTag (.tagged r t) env.pulledId (note (.pull (.tagged r t)) s))))) with hs5
  obtain ⟨s', hstep, ht', hw', hn'⟩ :=
    stdScanStep_blocked env c env.pulledId s5 oc hsv hb hrm hld hnt
  rw [hstep]
  refine ⟨s', rfl, ?_, ?_, ?_⟩
  · have h5 : s5.tags (refKey (.tagged r t)) = some cur := by
      rw [hs5]
      rw [setTag_other _ _ _ _ (refKey_temp_ne r t)]
      simp [setTag_self]
    simp [ht', h5, Ne.symm hne]
  · rw [hw', hs5]
    simp
  · rw [hn', hs5]
    simp

/-- The standalone flow with scanning enabled, on a blocked verdict. -/
lemma standaloneFlow_blocked (env : Env) (c : VulnerabilityCriteria)
    (r t : String) (cur : String) (s : WorldState) (oc : ScanOutcomeM)
    (hpull : env.pullResp = .ok ())
    (hgid : env.getIdStandaloneResp = .ok ())
    (htr : env.tagRestoreResp = .ok ())
    (htt : env.tagTempResp = .ok ())
    (hsv : scanVerdict env c = .ok oc) (hb : oc.blocked = true)
    (hrm : env.removeTempBlockedResp = .ok ())
    (hld : ∀ n, env.ledgerResp n = .ok ())
    (hnt : ∀ n, env.notifResp n = .ok ())
    (hne : env.pulledId ≠ cur) :
    ∃ s', standaloneFlow env c true (.tagged r t) cur s = (.ok (), s') ∧
      s'.tags (refKey (.tagged r t)) = some cur ∧
      s'.writes = s.writes ++ [some .skipped] ∧
      s'.notifs = s.notifs ++ [.auto_update_blocked] := by
  obtain ⟨s', hstep, ht, hw, hn⟩ :=
    stdPullStep_blocked env c r t cur s oc hpull hgid htr htt hsv hb hrm hld hnt hne
  unfold standaloneFlow
  rw [show (true && !isDigestBasedImage (.tagged r t)) = true from rfl]
  simp only [if_true]
  rw [hstep]
  exact ⟨s', rfl, ht, hw, hn⟩

/-- The orchestrator body for a run that takes the standalone path with
scanning enabled and is blocked by the gate. -/
lemma tryBody_blocked (env : Env) (s : WorldState)
    (cont : ContainerInfo) (d : InspectData) (r t : String)
    (sc : ScannerSettings) (us : Option UpdateSetting) (rc : RegistryCheck)
    (oc : ScanOutcomeM)
    (hlast : env.lastCheckedResp = .ok ())
    (hlist : env.listResp = .ok (some cont))
    (hins : env.inspectResp = .ok d)
    (himg : d.configImage = some (.tagged r t))
    (hsys : isSystemContainer (.tagged r t) = none)
    (hsc : env.scannerSettingsResp = .ok sc)
    (hscan : sc.scanner ≠ "none")
    (hus : env.updateSettingResp = .ok us)
    (hrc : env.registryResp = .ok rc)
    (hlocal : rc.isLocalImage = false)
    (herr : truthy rc.error = false)
    (hupd : rc.hasUpdate = true)
    (hstack : (truthy d.composeProject && truthy d.composeService) = false ∨
      ∃ cf, env.composeFileResp = .ok cf ∧ cf.success = false)
    (hpull : env.pullResp = .ok ())
    (hgid : env.getIdStandaloneResp = .ok ())
    (htr : env.tagRestoreResp = .ok ())
    (htt : env.tagTempResp = .ok ())
    (hsv : scanVerdict env
      ((us.bind (fun u => u.vulnerabilityCriteria)).getD .never) = .ok oc)
    (hb : oc.blocked = true)
    (hrm : env.removeTempBlockedResp = .ok ())
    (hld : ∀ n, env.ledgerResp n = .ok ())
    (hnt : ∀ n, env.notifResp n = .ok ())
    (hne : env.pulledId ≠ d.image) :
    ∃ s', tryBody env s = (.ok (), s') ∧
      s'.tags (refKey (.tagged r t)) = some d.image ∧
      s'.writes = s.writes ++ [some .skipped] ∧
      s'.notifs = s.notifs ++ [.auto_update_blocked] := by
  have hbool : (sc.scanner != "none") = true := by simp [hscan]
  obtain ⟨s', hstep, ht, hw, hn⟩ :=
    standaloneFlow_blocked env ((us.bind (fun u => u.vulnerabilityCriteria)).getD .never)
      r t d.image
      (note (.registryCheck (.tagged r t)) (note (.inspect cont.id) (note .list s)))
      oc hpull hgid htr htt hsv hb hrm hld hnt hne
  unfold tryBody
  rcases hstack with hstackA | ⟨cf, hcf, hcfs⟩
  · simp only [hlast, hlist, hins, himg, hsys, isDigestBasedImage, hsc, hus,
      hbool, hrc, hlocal, herr, hupd, hstackA, Bool.false_eq_true, if_false,
      Bool.not_false, Bool.not_true]
    rw [hstep]
    refine ⟨s', rfl, ht, by rw [hw]; simp, by rw [hn]; simp⟩
  · simp only [hlast, hlist, hins, himg, hsys, isDigestBasedImage, hsc, hus,
      hbool, hrc, hlocal, herr, hupd, hcf, hcfs, Bool.false_eq_true, if_false,
      Bool.not_false, Bool.not_true]
    split
    · rw [hstep]
      refine ⟨s', rfl, ht, by rw [hw]; simp, by rw [hn]; simp⟩
    · rw [hstep]
      refine ⟨s', rfl, ht, by rw [hw]; simp, by rw [hn]; simp⟩

/-- Glue: when the guarded body completes without throwing, the run returns
normally with the body's final state. -/
lemma runContainerUpdate_of_tryBody (env : Env) (s : WorldState)
    (v : Unit) (s2 : WorldState)
    (hc : env.createResp = .ok ())
    (hld : ∀ n, env.ledgerResp n = .ok ())
    (htb : tryBody env
      { s with createdStatus := some ExecStatus.running,
               writes := s.writes ++ [none] } = (.ok v, s2)) :
    runContainerUpdate env s = (.ok (), s2) := by
  unfold runContainerUpdate ledgerWrite
  simp only [hc, hld]
  rw [htb]

/-- C1.  On the standalone Safety-Tagging path with scanning enabled, a run
blocked by the Vulnerability Gate ends with terminal `skipped` and the
blocked notification, and re-resolving the original repository:tag pair
yields the image id the container was running before the run — never the
rejected new image (which is a different id by `hne`). -/
theorem safetyTag_blocked_preserves_live_tag (env : Env) (s : WorldState)
    (cont : ContainerInfo) (d : InspectData) (r t : String)
    (sc : ScannerSettings) (us : Option UpdateSetting) (rc : RegistryCheck)
    (oc : ScanOutcomeM)
    (hc : env.createResp = .ok ())
    (hld : ∀ n, env.ledgerResp n = .ok ())
    (hnt : ∀ n, env.notifResp n = .ok ())
    (hlast : env.lastCheckedResp = .ok ())
    (hlist : env.listResp = .ok (some cont))
    (hins : env.inspectResp = .ok d)
    (himg : d.configImage = some (.tagged r t))
    (hsys : isSystemContainer (.tagged r t) = none)
    (hsc : env.scannerSettingsResp = .ok sc)
    (hscan : sc.scanner ≠ "none")
    (hus : env.updateSettingResp = .ok us)
    (hrc : env.registryResp = .ok rc)
    (hlocal : rc.isLocalImage = false)
    (herr : truthy rc.error = false)
    (hupd : rc.hasUpdate = true)
    (hstack : (truthy d.composeProject && truthy d.composeService) = false ∨
      ∃ cf, env.composeFileResp = .ok cf ∧ cf.success = false)
    (hpull : env.pullResp = .ok ())
    (hgid : env.getIdStandaloneResp = .ok ())
    (htr : env.tagRestoreResp = .ok ())
    (htt : env.tagTempResp = .ok ())
    (hsv : scanVerdict env
      ((us.bind (fun u => u.vulnerabilityCriteria)).getD .never) = .ok oc)
    (hb : oc.blocked = true)
    (hrm : env.removeTempBlockedResp = .ok ())
    (hne : env.pulledId ≠ d.image) :
    (runContainerUpdate env s).1 = .ok () ∧
    (runContainerUpdate env s).2.tags (refKey (.tagged r t)) = some d.image ∧
    (runContainerUpdate env s).2.writes = s.writes ++ [none, some .skipped] ∧
    (runContainerUpdate env s).2.notifs = s.notifs ++ [.auto_update_blocked] := by
  obtain ⟨s', hstep, ht, hw, hn⟩ := tryBody_blocked env
    { s with createdStatus := some ExecStatus.running,
             writes := s.writes ++ [none] }
    cont d r t sc us rc oc hlast hlist hins himg hsys hsc hscan hus hrc hlocal
    herr hupd hstack hpull hgid htr htt hsv hb hrm hld hnt hne
  have hrun := runContainerUpdate_of_tryBody env s () s' hc hld hstep
  rw [hrun]
  refine ⟨rfl, ht, ?_, ?_⟩
  · rw [hw]
    simp
  · rw [hn]

theorem safetyTag_blocked_preserves_live_tag_witness :
    (runContainerUpdate envBlocked w0).1 = .ok () ∧
    (runContainerUpdate envBlocked w0).2.tags ("app", "latest") = some "sha:aaa" ∧
    (runContainerUpdate envBlocked w0).2.writes = [none, some .skipped] ∧
    (runContainerUpdate envBlocked w0).2.notifs = [.auto_update_blocked] := by
  have h := safetyTag_blocked_preserves_live_tag envBlocked w0 ⟨"cid1"⟩ d0
    "app" "latest" ⟨"trivy"⟩ (some ⟨some .any_finding⟩)
    ⟨true, some "sha:bbb", false, none⟩
    ⟨true, some "vulnerabilities found", [⟨"trivy", ⟨2, 0, 0, 0, 0, 0⟩⟩],
      some ⟨2, 0, 0, 0, 0, 0⟩⟩
    rfl (fun _ => rfl) (fun _ => rfl) rfl rfl rfl rfl (by decide) rfl
    (by decide) rfl rfl rfl rfl rfl (.inl rfl) rfl rfl rfl rfl rfl rfl rfl
    (by decide)
  simpa [w0, refKey, parseImageNameAndTag] using h

/-- The standalone scan step on an approved verdict: no effects, control
proceeds to promotion. -/
lemma stdScanStep_approved (env : Env) (c : VulnerabilityCriteria)
    (newId : String) (s : WorldState) (oc : ScanOutcomeM)
    (hsv : scanVerdict env c = .ok oc) (hb : oc.blocked = false) :
    ∃ s', stdScanStep env c newId s = (.ok (.proceed oc), s') ∧
      s'.tags = s.tags ∧ s'.writes = s.writes ∧ s'.notifs = s.notifs := by
  have h1 : (scanAndCheckBlock env c s).1 = .ok oc := by
    rw [scanAndCheckBlock_fst, hsv]
  have ht := scanAndCheckBlock_tags env c s
  have hw := scanAndCheckBlock_writes env c s
  have hn := scanAndCheckBlock_notifs env c s
  unfold stdScanStep stdScanTryBody
  rcases hp : scanAndCheckBlock env c s with ⟨v, st⟩
  rw [hp] at h1 ht hw hn
  simp only at h1 ht hw hn
  subst h1
  simp only [hb, Bool.false_eq_true, if_false]
  exact ⟨st, rfl, ht, hw, hn⟩

/-- The standalone pull step on an approved verdict: the new image id is
promoted onto the original repository:tag pair and the temp tag is removed
(removal succeeding by `hcl`). -/
lemma stdPullStep_approved (env : Env) (c : VulnerabilityCriteria)
    (r t : String) (cur : String) (s : WorldState) (oc : ScanOutcomeM)
    (hpull : env.pullResp = .ok ())
    (hgid : env.getIdStandaloneResp = .ok ())
    (htr : env.tagRestoreResp = .ok ())
    (htt : env.tagTempResp = .ok ())
    (hsv : scanVerdict env c = .ok oc) (hb : oc.blocked = false)
    (hpr : env.tagPromoteResp = .ok ())
    (hcl : env.removeTempCleanupResp = .ok ()) :
    ∃ s', stdPullStep env c (.tagged r t) cur s = (.ok (.proceed oc), s') ∧
      s'.tags (refKey (.tagged r t)) = some env.pulledId ∧
      s'.tags (refKey (getTempImageTag (.tagged r t))) = none ∧
      s'.writes = s.writes ∧ s'.notifs = s.notifs := by
  unfold stdPullStep stdPullTryBody
  simp only [hpull, hgid, htr, htt, setTag_self]
  set s5 := setTag (getTempImageTag (.tagged r t)) env.pulledId
    (note (.tag env.pulledId (refKey (getTempImageTag (.tagged r t))).1
        (refKey (getTempImageTag (.tagged r t))).2)
      (setTag (.tagged r t) cur
        (note (.tag cur (refKey (.tagged r t)).1 (refKey (.tagged r t)).2)
          (setTag (.tagged r t) env.pulledId (note (.pull (.tagged r t)) s))))) with hs5
  obtain ⟨s6, hstep, ht6, hw6, hn6⟩ :=
    stdScanStep_approved env c env.pulledId s5 oc hsv hb
  rw [hstep]
  simp only [hpr, hcl]
  refine ⟨_, rfl, ?_, ?_, ?_, ?_⟩
  · rw [removeImageByRef]
    simp only [note_tags]
    rw [if_neg (refKey_temp_ne r t)]
    simp [setTag_self]
  · rw [removeImageByRef]
    simp
  · simp [hw6, hs5]
  · simp [hn6, hs5]

/-- When the recreation collaborators all succeed, `recreateContainer`
returns `true`. -/
lemma recreateContainer_fst_true (env : Env) (s : WorldState)
    (cont2 : ContainerInfo) (d2 : InspectData) (nc : ContainerInfo)
    (hrl : env.rListResp = .ok (some cont2)) (hri : env.rInspectResp = .ok d2)
    (hstop : env.stopResp = .ok ()) (hrem : env.removeResp = .ok ())
    (hcc : env.createContainerResp = .ok nc) (hstart : env.startResp = .ok ()) :
    (recreateContainer env s).1 = true := by
  unfold recreateContainer recreateBody
  rw [hrl, hri]
  by_cases hr : d2.stateRunning <;> simp [hr, hstop, hrem, hcc, hstart]

/-- The recreation phase when recreation and bookkeeping succeed: terminal
`success` plus the success notification; the tag store is untouched. -/
lemma recreatePhase_success (env : Env) (s : WorldState)
    (cont2 : ContainerInfo) (d2 : InspectData) (nc : ContainerInfo)
    (hrl : env.rListResp = .ok (some cont2)) (hri : env.rInspectResp = .ok d2)
    (hstop : env.stopResp = .ok ()) (hrem : env.removeResp = .ok ())
    (hcc : env.createContainerResp = .ok nc) (hstart : env.startResp = .ok ())
    (hlu : env.lastUpdatedStandaloneResp = .ok ())
    (hld : ∀ n, env.ledgerResp n = .ok ())
    (hnt : ∀ n, env.notifResp n = .ok ()) :
    ∃ s', recreatePhase env s = (.ok (), s') ∧
      s'.tags = s.tags ∧
      s'.writes = s.writes ++ [some .success] ∧
      s'.notifs = s.notifs ++ [.auto_update_success] := by
  have hb := recreateContainer_fst_true env s cont2 d2 nc hrl hri hstop hrem hcc hstart
  have ht := recreateContainer_tags env s
  have hw := recreateContainer_writes env s
  have hn := recreateContainer_notifs env s
  unfold recreatePhase
  rcases hR : recreateContainer env s with ⟨b, sR⟩
  rw [hR] at hb ht hw hn
  simp only at hb ht hw hn
  subst hb
  simp only [hlu, ledgerWrite, sendNotif, hld, hnt]
  exact ⟨_, rfl, by simp [ht], by simp [hw], by simp [hn]⟩

/-- The standalone flow with scanning enabled, on an approved verdict and
successful recreation. -/
lemma standaloneFlow_success (env : Env) (c : VulnerabilityCriteria)
    (r t : String) (cur : String) (s : WorldState) (oc : ScanOutcomeM)
    (cont2 : ContainerInfo) (d2 : InspectData) (nc : ContainerInfo)
    (hpull : env.pullResp = .ok ())
    (hgid : env.getIdStandaloneResp = .ok ())
    (htr : env.tagRestoreResp = .ok ())
    (htt : env.tagTempResp = .ok ())
    (hsv : scanVerdict env c = .ok oc) (hb : oc.blocked = false)
    (hpr : env.tagPromoteResp = .ok ())
    (hcl : env.removeTempCleanupResp = .ok ())
    (hrl : env.rListResp = .ok (some cont2)) (hri : env.rInspectResp = .ok d2)
    (hstop : env.stopResp = .ok ()) (hrem : env.removeResp = .ok ())
    (hcc : env.createContainerResp = .ok nc) (hstart : env.startResp = .ok ())
    (hlu : env.lastUpdatedStandaloneResp = .ok ())
    (hld : ∀ n, env.ledgerResp n = .ok ())
    (hnt : ∀ n, env.notifResp n = .ok ()) :
    ∃ s', standaloneFlow env c true (.tagged r t) cur s = (.ok (), s') ∧
      s'.tags (refKey (.tagged r t)) = some env.pulledId ∧
      s'.tags (refKey (getTempImageTag (.tagged r t))) = none ∧
      s'.writes = s.writes ++ [some .success] ∧
      s'.notifs = s.notifs ++ [.auto_update_success] := by
  obtain ⟨s1, hstep1, ht1a, ht1b, hw1, hn1⟩ :=
    stdPullStep_approved env c r t cur s oc hpull hgid htr htt hsv hb hpr hcl
  obtain ⟨s2, hstep2, ht2, hw2, hn2⟩ :=
    recreatePhase_success env s1 cont2 d2 nc hrl hri hstop hrem hcc hstart hlu hld hnt
  unfold standaloneFlow
  rw [show (true && !isDigestBasedImage (.tagged r t)) = true from rfl]
  simp only [if_true]
  rw [hstep1]
  refine ⟨s2, hstep2, by rw [ht2, ht1a], by rw [ht2, ht1b],
    by rw [hw2, hw1], by rw [hn2, hn1]⟩

/-- The orchestrator body for a standalone run with scanning enabled, an
approved verdict and successful recreation. -/
lemma tryBody_success (env : Env) (s : WorldState)
    (cont : ContainerInfo) (d : InspectData) (r t : String)
    (sc : ScannerSettings) (us : Option UpdateSetting) (rc : RegistryCheck)
    (oc : ScanOutcomeM) (cont2 : ContainerInfo) (d2 : InspectData)
    (nc : ContainerInfo)
    (hlast : env.lastCheckedResp = .ok ())
    (hlist : env.listResp = .ok (some cont))
    (hins : env.inspectResp = .ok d)
    (himg : d.configImage = some (.tagged r t))
    (hsys : isSystemContainer (.tagged r t) = none)
    (hsc : env.scannerSettingsResp = .ok sc)
    (hscan : sc.scanner ≠ "none")
    (hus : env.updateSettingResp = .ok us)
    (hrc : env.registryResp = .ok rc)
    (hlocal : rc.isLocalImage = false)
    (herr : truthy rc.error = false)
    (hupd : rc.hasUpdate = true)
    (hstack : (truthy d.composeProject && truthy d.composeService) = false ∨
      ∃ cf, env.composeFileResp = .ok cf ∧ cf.success = false)
    (hpull : env.pullResp = .ok ())
    (hgid : env.getIdStandaloneResp = .ok ())
    (htr : env.tagRestoreResp = .ok ())
    (htt : env.tagTempResp = .ok ())
    (hsv : scanVerdict env
      ((us.bind (fun u => u.vulnerabilityCriteria)).getD .never) = .ok oc)
    (hb : oc.blocked = false)
    (hpr : env.tagPromoteResp = .ok ())
    (hcl : env.removeTempCleanupResp = .ok ())
    (hrl : env.rListResp = .ok (some cont2)) (hri : env.rInspectResp = .ok d2)
    (hstop : env.stopResp = .ok ()) (hrem : env.removeResp = .ok ())
    (hcc : env.createContainerResp = .ok nc) (hstart : env.startResp = .ok ())
    (hlu : env.lastUpdatedStandaloneResp = .ok ())
    (hld : ∀ n, env.ledgerResp n = .ok ())
    (hnt : ∀ n, env.notifResp n = .ok ()) :
    ∃ s', tryBody env s = (.ok (), s') ∧
      s'.tags (refKey (.tagged r t)) = some env.pulledId ∧
      s'.tags (refKey (getTempImageTag (.tagged r t))) = none ∧
      s'.writes = s.writes ++ [some .success] ∧
      s'.notifs = s.notifs ++ [.auto_update_success] := by
  have hbool : (sc.scanner != "none") = true := by simp [hscan]
  obtain ⟨s', hstep, hta, htb, hw, hn⟩ :=
    standaloneFlow_success env ((us.bind (fun u => u.vulnerabilityCriteria)).getD .never)
      r t d.image
      (note (.registryCheck (.tagged r t)) (note (.inspect cont.id) (note .list s)))
      oc cont2 d2 nc hpull hgid htr htt hsv hb hpr hcl hrl hri hstop hrem hcc
      hstart hlu hld hnt
  unfold tryBody
  rcases hstack with hstackA | ⟨cf, hcf, hcfs⟩
  · simp only [hlast, hlist, hins, himg, hsys, isDigestBasedImage, hsc, hus,
      hbool, hrc, hlocal, herr, hupd, hstackA, Bool.false_eq_true, if_false,
      Bool.not_false, Bool.not_true]
    rw [hstep]
    refine ⟨s', rfl, hta, htb, by rw [hw]; simp, by rw [hn]; simp⟩
  · simp only [hlast, hlist, hins, himg, hsys, isDigestBasedImage, hsc, hus,
      hbool, hrc, hlocal, herr, hupd, hcf, hcfs, Bool.false_eq_true, if_false,
      Bool.not_false, Bool.not_true]
    split
    · rw [hstep]
      refine ⟨s', rfl, hta, htb, by rw [hw]; simp, by rw [hn]; simp⟩
    · rw [hstep]
      refine ⟨s', rfl, hta, htb, by rw [hw]; simp, by rw [hn]; simp⟩

/-- C2 (amended).  On the standalone Safety-Tagging path with scanning
enabled, a run ending in terminal `success` leaves the original
repository:tag pair resolving to the new (gate-approved) image identity;
provided the best-effort temp-tag removal succeeded (`hcl`), no temporary
tag remains. -/
theorem promotion_correct_on_success (env : Env) (s : WorldState)
    (cont : ContainerInfo) (d : InspectData) (r t : String)
    (sc : ScannerSettings) (us : Option UpdateSetting) (rc : RegistryCheck)
    (oc : ScanOutcomeM) (cont2 : ContainerInfo) (d2 : InspectData)
    (nc : ContainerInfo)
    (hc : env.createResp = .ok ())
    (hld : ∀ n, env.ledgerResp n = .ok ())
    (hnt : ∀ n, env.notifResp n = .ok ())
    (hlast : env.lastCheckedResp = .ok ())
    (hlist : env.listResp = .ok (some cont))
    (hins : env.inspectResp = .ok d)
    (himg : d.configImage = some (.tagged r t))
    (hsys : isSystemContainer (.tagged r t) = none)
    (hsc : env.scannerSettingsResp = .ok sc)
    (hscan : sc.scanner ≠ "none")
    (hus : env.updateSettingResp = .ok us)
    (hrc : env.registryResp = .ok rc)
    (hlocal : rc.isLocalImage = false)
    (herr : truthy rc.error = false)
    (hupd : rc.hasUpdate = true)
    (hstack : (truthy d.composeProject && truthy d.composeService) = false ∨
      ∃ cf, env.composeFileResp = .ok cf ∧ cf.success = false)
    (hpull : env.pullResp = .ok ())
    (hgid : env.getIdStandaloneResp = .ok ())
    (htr : env.tagRestoreResp = .ok ())
    (htt : env.tagTempResp = .ok ())
    (hsv : scanVerdict env
      ((us.bind (fun u => u.vulnerabilityCriteria)).getD .never) = .ok oc)
    (hb : oc.blocked = false)
    (hpr : env.tagPromoteResp = .ok ())
    (hcl : env.removeTempCleanupResp = .ok ())
    (hrl : env.rListResp = .ok (some cont2)) (hri : env.rInspectResp = .ok d2)
    (hstop : env.stopResp = .ok ()) (hrem : env.removeResp = .ok ())
    (hcc : env.createContainerResp = .ok nc) (hstart : env.startResp = .ok ())
    (hlu : env.lastUpdatedStandaloneResp = .ok ()) :
    (runContainerUpdate env s).1 = .ok () ∧
    (runContainerUpdate env s).2.tags (refKey (.tagged r t)) = some env.pulledId ∧
    (runContainerUpdate env s).2.tags (refKey (getTempImageTag (.tagged r t))) = none ∧
    (runContainerUpdate env s).2.writes = s.writes ++ [none, some .success] ∧
    (runContainerUpdate env s).2.notifs = s.notifs ++ [.auto_update_success] := by
  obtain ⟨s', hstep, hta, htb, hw, hn⟩ := tryBody_success env
    { s with createdStatus := some ExecStatus.running,
             writes := s.writes ++ [none] }
    cont d r t sc us rc oc cont2 d2 nc hlast hlist hins himg hsys hsc hscan
    hus hrc hlocal herr hupd hstack hpull hgid htr htt hsv hb hpr hcl hrl hri
    hstop hrem hcc hstart hlu hld hnt
  have hrun := runContainerUpdate_of_tryBody env s () s' hc hld hstep
  rw [hrun]
  refine ⟨rfl, hta, htb, ?_, ?_⟩
  · rw [hw]
    simp
  · rw [hn]

theorem promotion_correct_on_success_witness :
    (runContainerUpdate okEnv w0).1 = .ok () ∧
    (runContainerUpdate okEnv w0).2.tags ("app", "latest") = some "sha:bbb" ∧
    (runContainerUpdate okEnv w0).2.tags ("app", "latest-dockhand-temp") = none ∧
    (runContainerUpdate okEnv w0).2.writes = [none, some .success] ∧
    (runContainerUpdate okEnv w0).2.notifs = [.auto_update_success] := by
  have h := promotion_correct_on_success okEnv w0 ⟨"cid1"⟩ d0
    "app" "latest" ⟨"trivy"⟩ (some ⟨some .any_finding⟩)
    ⟨true, some "sha:bbb", false, none⟩
    ⟨false, none, [⟨"trivy", ⟨0, 0, 0, 0, 0, 0⟩⟩], some ⟨0, 0, 0, 0, 0, 0⟩⟩
    ⟨"cid1"⟩ d0 ⟨"cid2"⟩
    rfl (fun _ => rfl) (fun _ => rfl) rfl rfl rfl rfl (by decide) rfl
    (by decide) rfl rfl rfl rfl rfl (.inl rfl) rfl rfl rfl rfl rfl rfl rfl
    rfl rfl rfl rfl rfl rfl rfl rfl
  simpa [w0, refKey, parseImageNameAndTag, getTempImageTag] using h

/-- C2 (counterexample).  When the best-effort temp-tag removal throws, the
failure is ignored: the run still ends in terminal `success` (with the
original tag correctly promoted) but the temporary tag remains on the
system, contradicting the claim that no temporary tag remains after every
`success` run. -/
theorem promotion_temp_remains_cex :
    (runContainerUpdate envCleanupFail w0).1 = .ok () ∧
    (runContainerUpdate envCleanupFail w0).2.writes = [none, some .success] ∧
    (runContainerUpdate envCleanupFail w0).2.tags ("app", "latest") = some "sha:bbb" ∧
    (runContainerUpdate envCleanupFail w0).2.tags ("app", "latest-dockhand-temp") =
      some "sha:bbb" := by
  exact ⟨rfl, by decide, by decide, by decide⟩

@[simp] lemma addLog_createdStatus (e : LogEvent) (s : WorldState) :
    (addLog e s).createdStatus = s.createdStatus := rfl

@[simp] lemma setTag_createdStatus (r : ImageRef) (id : String) (s : WorldState) :
    (setTag r id s).createdStatus = s.createdStatus := rfl

@[simp] lemma removeImageById_createdStatus (id : String) (s : WorldState) :
    (removeImageById id s).createdStatus = s.createdStatus := rfl

@[simp] lemma removeImageByRef_createdStatus (r : ImageRef) (s : WorldState) :
    (removeImageByRef r s).createdStatus = s.createdStatus := rfl

lemma runSaves_createdStatus (resp : Nat → Except Err Unit) (warn : Bool)
    (n i : Nat) (s : WorldState) :
    (runSaves resp warn n i s).createdStatus = s.createdStatus := by
  induction n generalizing i s with
  | zero => rfl
  | succ k ih =>
      unfold runSaves
      rcases hri : resp i with er | u
      · simp only [hri]
        split
        · rw [ih]
          simp
        · exact ih _ _
      · simp only [hri]
        exact ih _ _

lemma currentSummaryLookup_createdStatus (env : Env) (c : VulnerabilityCriteria)
    (s : WorldState) :
    (currentSummaryLookup env c s).2.createdStatus = s.createdStatus := by
  unfold currentSummaryLookup
  split
  · rcases env.cachedResp with e | cu
    · simp
    · rcases cu with _ | cu
      · rcases env.scanCurrentResp with e | crs
        · simp
        · simp only
          split <;> simp [runSaves_createdStatus]
      · simp
  · simp

lemma scanAndCheckBlock_createdStatus (env : Env) (c : VulnerabilityCriteria)
    (s : WorldState) :
    (scanAndCheckBlock env c s).2.createdStatus = s.createdStatus := by
  unfold scanAndCheckBlock
  rcases env.scanNewResp with e | rs
  · rfl
  · simp only
    split
    · rfl
    · simp [currentSummaryLookup_createdStatus, runSaves_createdStatus]

lemma connectLoop_createdStatus (env : Env) (nets : List NetworkInfo)
    (s : WorldState) :
    (connectLoop env nets s).createdStatus = s.createdStatus := by
  induction nets generalizing s with
  | nil => rfl
  | cons n ns ih =>
      rw [connectLoop_cons]
      rcases env.connectResp n.name with e | _ <;> simp [ih]

lemma recreateContainer_createdStatus (env : Env) (s : WorldState) :
    (recreateContainer env s).2.createdStatus = s.createdStatus := by
  unfold recreateContainer recreateBody
  rcases env.rListResp with e | c
  · simp
  · rcases c with _ | cont
    · simp
    · rcases env.rInspectResp with e | d
      · simp
      · simp only
        by_cases hr : d.stateRunning <;>
          rcases env.stopResp with e | _ <;>
            rcases env.removeResp with e | _ <;>
              rcases env.createContainerResp with e | nc <;>
                rcases env.startResp with e | _ <;>
                  simp [hr, connectLoop_createdStatus]

@[simp] lemma terminalCount_nil : terminalCount [] = 0 := rfl

@[simp] lemma terminalCount_append (ws l : List (Option ExecStatus)) :
    terminalCount (ws ++ l) = terminalCount ws + terminalCount l := by
  simp [terminalCount, List.filter_append]

@[simp] lemma terminalCount_skipped :
    terminalCount [some .skipped] = 1 := rfl

@[simp] lemma terminalCount_failed :
    terminalCount [some .failed] = 1 := rfl

@[simp] lemma terminalCount_success :
    terminalCount [some .success] = 1 := rfl

@[simp] lemma terminalCount_none :
    terminalCount [(none : Option ExecStatus)] = 0 := rfl

/-- Outcomes of the standalone scan `try` body: one terminal write on the
blocked return, none when proceeding or throwing. -/
lemma stdScanTryBody_tc (env : Env) (c : VulnerabilityCriteria)
    (newId : String) (s : WorldState)
    (hld : ∀ n, env.ledgerResp n = .ok ())
    (hnt : ∀ n, env.notifResp n = .ok ()) :
    (∃ s', stdScanTryBody env c newId s = (.ok .done, s') ∧
        terminalCount s'.writes = terminalCount s.writes + 1 ∧
        s'.createdStatus = s.createdStatus) ∨
    (∃ oc s', stdScanTryBody env c newId s = (.ok (.proceed oc), s') ∧
        terminalCount s'.writes = terminalCount s.writes ∧
        s'.createdStatus = s.createdStatus) ∨
    (∃ e s', stdScanTryBody env c newId s = (.error e, s') ∧
        terminalCount s'.writes = terminalCount s.writes ∧
        s'.createdStatus = s.createdStatus) := by
  have hw := scanAndCheckBlock_writes env c s
  have hcs := scanAndCheckBlock_createdStatus env c s
  unfold stdScanTryBody
  rcases hp : scanAndCheckBlock env c s with ⟨v, st⟩
  rw [hp] at hw hcs
  simp only at hw hcs
  rcases v with e | oc
  · exact .inr (.inr ⟨e, st, rfl, by rw [hw], hcs⟩)
  · by_cases hb : oc.blocked = true
    · simp only [if_pos hb]
      rcases hrm : env.removeTempBlockedResp with e | u
      · exact .inr (.inr ⟨e, _, rfl, by simp [hw], by simp [hcs]⟩)
      · simp only [ledgerWrite, hld, sendNotif, hnt]
        exact .inl ⟨_, rfl, by simp [hw], by simp [hcs]⟩
    · simp only [if_neg hb]
      exact .inr (.inl ⟨oc, st, rfl, by rw [hw], hcs⟩)

/-- Outcomes of the standalone scan `try/catch`. -/
lemma stdScanStep_tc (env : Env) (c : VulnerabilityCriteria)
    (newId : String) (s : WorldState)
    (hld : ∀ n, env.ledgerResp n = .ok ())
    (hnt : ∀ n, env.notifResp n = .ok ()) :
    (∃ s', stdScanStep env c newId s = (.ok .done, s') ∧
        terminalCount s'.writes = terminalCount s.writes + 1 ∧
        s'.createdStatus = s.createdStatus) ∨
    (∃ oc s', stdScanStep env c newId s = (.ok (.proceed oc), s') ∧
        terminalCount s'.writes = terminalCount s.writes ∧
        s'.createdStatus = s.createdStatus) ∨
    (∃ e s', stdScanStep env c newId s = (.error e, s') ∧
        terminalCount s'.writes = terminalCount s.writes ∧
        s'.createdStatus = s.createdStatus) := by
  rcases stdScanTryBody_tc env c newId s hld hnt with
    ⟨s1, h1, htc, hcs⟩ | ⟨oc, s1, h1, htc, hcs⟩ | ⟨e, s1, h1, htc, hcs⟩
  · unfold stdScanStep
    rw [h1]
    exact .inl ⟨s1, rfl, htc, hcs⟩
  · unfold stdScanStep
    rw [h1]
    exact .inr (.inl ⟨oc, s1, rfl, htc, hcs⟩)
  · unfold stdScanStep
    rw [h1]
    rcases hrm : env.removeTempScanErrResp with e2 | u
    · exact .inr (.inr ⟨e2, _, rfl, by simp [htc], by simp [hcs]⟩)
    · simp only [ledgerWrite, hld]
      exact .inl ⟨_, rfl, by simp [htc], by simp [hcs]⟩

/-- Outcomes of the standalone pull `try/catch`: with a healthy ledger it
never throws — one terminal write when it already returned, none when
proceeding to recreation. -/
lemma stdPullStep_tc (env : Env) (c : VulnerabilityCriteria)
    (ref : ImageRef) (cur : String) (s : WorldState)
    (hld : ∀ n, env.ledgerResp n = .ok ())
    (hnt : ∀ n, env.notifResp n = .ok ()) :
    (∃ s', stdPullStep env c ref cur s = (.ok .done, s') ∧
        terminalCount s'.writes = terminalCount s.writes + 1 ∧
        s'.createdStatus = s.createdStatus) ∨
    (∃ oc s', stdPullStep env c ref cur s = (.ok (.proceed oc), s') ∧
        terminalCount s'.writes = terminalCount s.writes ∧
        s'.createdStatus = s.createdStatus) := by
  unfold stdPullStep stdPullTryBody
  rcases hp : env.pullResp with e | u
  · simp only [hp, ledgerWrite, hld]
    exact .inl ⟨_, rfl, by simp, by simp⟩
  · simp only [hp]
    rcases hg : env.getIdStandaloneResp with e | u
    · simp only [hg, ledgerWrite, hld]
      exact .inl ⟨_, rfl, by simp, by simp⟩
    · simp only [hg, setTag_self]
      rcases htr : env.tagRestoreResp with e | u
      · simp only [htr, ledgerWrite, hld]
        exact .inl ⟨_, rfl, by simp, by simp⟩
      · simp only [htr]
        rcases htt : env.tagTempResp with e | u
        · simp only [htt, ledgerWrite, hld]
          exact .inl ⟨_, rfl, by simp, by simp⟩
        · simp only [htt]
          set s5 := setTag (getTempImageTag ref) env.pulledId
            (note (.tag env.pulledId (refKey (getTempImageTag ref)).1
                (refKey (getTempImageTag ref)).2)
              (setTag ref cur
                (note (.tag cur (refKey ref).1 (refKey ref).2)
                  (setTag ref env.pulledId (note (.pull ref) s))))) with hs5
          have hw5 : s5.writes = s.writes := by rw [hs5]; simp
          have hc5 : s5.createdStatus = s.createdStatus := by rw [hs5]; simp
          rcases stdScanStep_tc env c env.pulledId s5 hld hnt with
            ⟨s6, h6, htc, hcs⟩ | ⟨oc, s6, h6, htc, hcs⟩ | ⟨e, s6, h6, htc, hcs⟩
          · rw [h6]
            exact .inl ⟨s6, rfl, by rw [htc, hw5], by rw [hcs, hc5]⟩
          · rw [h6]
            rcases hpr : env.tagPromoteResp with e | u
            · simp only [hpr, ledgerWrite, hld]
              exact .inl ⟨_, rfl, by simp [htc, hw5], by simp [hcs, hc5]⟩
            · simp only [hpr]
              rcases hcl : env.removeTempCleanupResp with e | u
              · simp only [hcl]
                exact .inr ⟨oc, _, rfl, by simp [htc, hw5], by simp [hcs, hc5]⟩
              · simp only [hcl]
                exact .inr ⟨oc, _, rfl, by simp [htc, hw5], by simp [hcs, hc5]⟩
          · rw [h6]
            simp only [ledgerWrite, hld]
            exact .inl ⟨_, rfl, by simp [htc, hw5], by simp [hcs, hc5]⟩

/-- Outcomes of the plain (no-scan) pull. -/
lemma simplePullStep_tc (env : Env) (ref : ImageRef) (s : WorldState)
    (hld : ∀ n, env.ledgerResp n = .ok ()) :
    (∃ s', simplePullStep env ref s = (.ok .done, s') ∧
        terminalCount s'.writes = terminalCount s.writes + 1 ∧
        s'.createdStatus = s.createdStatus) ∨
    (∃ oc s', simplePullStep env ref s = (.ok (.proceed oc), s') ∧
        terminalCount s'.writes = terminalCount s.writes ∧
        s'.createdStatus = s.createdStatus) := by
  unfold simplePullStep
  rcases hp : env.pullResp with e | u
  · simp only [hp, ledgerWrite, hld]
    exact .inl ⟨_, rfl, by simp, by simp⟩
  · simp only [hp]
    exact .inr ⟨_, _, rfl, by simp, by simp⟩

/-- Outcomes of the recreation phase: terminal `success` on completion, a
rethrown error (with no terminal write) otherwise. -/
lemma recreatePhase_tc (env : Env) (s : WorldState)
    (hld : ∀ n, env.ledgerResp n = .ok ())
    (hnt : ∀ n, env.notifResp n = .ok ()) :
    (∃ s', recreatePhase env s = (.ok (), s') ∧
        terminalCount s'.writes = terminalCount s.writes + 1 ∧
        s'.createdStatus = s.createdStatus) ∨
    (∃ e s', recreatePhase env s = (.error e, s') ∧
        terminalCount s'.writes = terminalCount s.writes ∧
        s'.createdStatus = s.createdStatus) := by
  have hw := recreateContainer_writes env s
  have hcs := recreateContainer_createdStatus env s
  unfold recreatePhase
  rcases hR : recreateContainer env s with ⟨b, sR⟩
  rw [hR] at hw hcs
  simp only at hw hcs
  rcases b
  · exact .inr ⟨_, sR, rfl, by rw [hw], hcs⟩
  · rcases hlu : env.lastUpdatedStandaloneResp with e | u
    · simp only [hlu]
      exact .inr ⟨e, sR, rfl, by rw [hw], hcs⟩
    · simp only [hlu, ledgerWrite, hld, sendNotif, hnt]
      exact .inl ⟨_, rfl, by simp [hw], by simp [hcs]⟩

/-- Outcomes of the whole standalone flow: with a healthy ledger and
notification sink it either returns normally having written exactly one
terminal status, or rethrows having written none. -/
lemma standaloneFlow_tc (env : Env) (c : VulnerabilityCriteria) (scan : Bool)
    (ref : ImageRef) (cur : String) (s : WorldState)
    (hld : ∀ n, env.ledgerResp n = .ok ())
    (hnt : ∀ n, env.notifResp n = .ok ()) :
    (∃ s', standaloneFlow env c scan ref cur s = (.ok (), s') ∧
        terminalCount s'.writes = terminalCount s.writes + 1 ∧
        s'.createdStatus = s.createdStatus) ∨
    (∃ e s', standaloneFlow env c scan ref cur s = (.error e, s') ∧
        terminalCount s'.writes = terminalCount s.writes ∧
        s'.createdStatus = s.createdStatus) := by
  unfold standaloneFlow
  rcases hcond : (scan && !isDigestBasedImage ref) with _ | _
  · simp only [hcond, Bool.false_eq_true, if_false]
    rcases simplePullStep_tc env ref s hld with
      ⟨s1, h1, htc, hcs⟩ | ⟨oc, s1, h1, htc, hcs⟩
    · rw [h1]
      exact .inl ⟨s1, rfl, htc, hcs⟩
    · rw [h1]
      rcases recreatePhase_tc env s1 hld hnt with
        ⟨s2, h2, htc2, hcs2⟩ | ⟨e, s2, h2, htc2, hcs2⟩
      · exact .inl ⟨s2, h2, by rw [htc2, htc], by rw [hcs2, hcs]⟩
      · exact .inr ⟨e, s2, h2, by rw [htc2, htc], by rw [hcs2, hcs]⟩
  · simp only [hcond, if_true]
    rcases stdPullStep_tc env c ref cur s hld hnt with
      ⟨s1, h1, htc, hcs⟩ | ⟨oc, s1, h1, htc, hcs⟩
    · rw [h1]
      exact .inl ⟨s1, rfl, htc, hcs⟩
    · rw [h1]
      rcases recreatePhase_tc env s1 hld hnt with
        ⟨s2, h2, htc2, hcs2⟩ | ⟨e, s2, h2, htc2, hcs2⟩
      · exact .inl ⟨s2, h2, by rw [htc2, htc], by rw [hcs2, hcs]⟩
      · exact .inr ⟨e, s2, h2, by rw [htc2, htc], by rw [hcs2, hcs]⟩

/-- Outcomes of the compose scan `try` body. -/
lemma composeScanTryBody_tc (env : Env) (c : VulnerabilityCriteria)
    (ref : ImageRef) (cur : String) (s : WorldState)
    (hld : ∀ n, env.ledgerResp n = .ok ())
    (hnt : ∀ n, env.notifResp n = .ok ()) :
    (∃ s', composeScanTryBody env c ref cur s = (.ok .done, s') ∧
        terminalCount s'.writes = terminalCount s.writes + 1 ∧
        s'.createdStatus = s.createdStatus) ∨
    (∃ oc s', composeScanTryBody env c ref cur s = (.ok (.proceed oc), s') ∧
        terminalCount s'.writes = terminalCount s.writes ∧
        s'.createdStatus = s.createdStatus) ∨
    (∃ e s', composeScanTryBody env c ref cur s = (.error e, s') ∧
        terminalCount s'.writes = terminalCount s.writes ∧
        s'.createdStatus = s.createdStatus) := by
  have hw := scanAndCheckBlock_writes env c s
  have hcs := scanAndCheckBlock_createdStatus env c s
  unfold composeScanTryBody
  rcases hp : scanAndCheckBlock env c s with ⟨v, st⟩
  rw [hp] at hw hcs
  simp only at hw hcs
  rcases v with e | oc
  · exact .inr (.inr ⟨e, st, rfl, by rw [hw], hcs⟩)
  · by_cases hb : oc.blocked = true
    · simp only [if_pos hb]
      rcases hrs : env.composeTagRestoreBlockedResp with e | u
      · exact .inr (.inr ⟨e, _, rfl, by simp [hw], by simp [hcs]⟩)
      · simp only [ledgerWrite, hld, sendNotif, hnt]
        exact .inl ⟨_, rfl, by simp [hw], by simp [hcs]⟩
    · simp only [if_neg hb]
      exact .inr (.inl ⟨oc, st, rfl, by rw [hw], hcs⟩)

/-- Outcomes of the compose scan `try/catch`. -/
lemma composeScanStep_tc (env : Env) (c : VulnerabilityCriteria)
    (ref : ImageRef) (cur : String) (s : WorldState)
    (hld : ∀ n, env.ledgerResp n = .ok ())
    (hnt : ∀ n, env.notifResp n = .ok ()) :
    (∃ s', composeScanStep env c ref cur s = (.ok .done, s') ∧
        terminalCount s'.writes = terminalCount s.writes + 1 ∧
        s'.createdStatus = s.createdStatus) ∨
    (∃ oc s', composeScanStep env c ref cur s = (.ok (.proceed oc), s') ∧
        terminalCount s'.writes = terminalCount s.writes ∧
        s'.createdStatus = s.createdStatus) ∨
    (∃ e s', composeScanStep env c ref cur s = (.error e, s') ∧
        terminalCount s'.writes = terminalCount s.writes ∧
        s'.createdStatus = s.createdStatus) := by
  rcases composeScanTryBody_tc env c ref cur s hld hnt with
    ⟨s1, h1, htc, hcs⟩ | ⟨oc, s1, h1, htc, hcs⟩ | ⟨e, s1, h1, htc, hcs⟩
  · unfold composeScanStep
    rw [h1]
    exact .inl ⟨s1, rfl, htc, hcs⟩
  · unfold composeScanStep
    rw [h1]
    exact .inr (.inl ⟨oc, s1, rfl, htc, hcs⟩)
  · unfold composeScanStep
    rw [h1]
    rcases hrs : env.composeTagRestoreScanErrResp with e2 | u
    · exact .inr (.inr ⟨e2, _, rfl, by simp [htc], by simp [hcs]⟩)
    · simp only [ledgerWrite, hld]
      exact .inl ⟨_, rfl, by simp [htc], by simp [hcs]⟩

/-- Outcomes of the compose `try` body. -/
lemma composeTryBody_tc (env : Env) (c : VulnerabilityCriteria) (scan : Bool)
    (ref : ImageRef) (cur : String) (s : WorldState)
    (hld : ∀ n, env.ledgerResp n = .ok ())
    (hnt : ∀ n, env.notifResp n = .ok ()) :
    (∃ s', composeTryBody env c scan ref cur s = (.ok (), s') ∧
        terminalCount s'.writes = terminalCount s.writes + 1 ∧
        s'.createdStatus = s.createdStatus) ∨
    (∃ e s', composeTryBody env c scan ref cur s = (.error e, s') ∧
        terminalCount s'.writes = terminalCount s.writes ∧
        s'.createdStatus = s.createdStatus) := by
  unfold composeTryBody
  rcases hcp : env.composePullResp with e | pr
  · exact .inr ⟨e, s, rfl, rfl, rfl⟩
  · simp only [hcp]
    rcases hps : pr.success with _ | _
    · refine .inr ⟨(if truthy pr.error then pr.error.getD "" else "docker compose pull failed"),
        s, ?_, rfl, rfl⟩
      simp
    · simp only [hps, Bool.not_true, Bool.false_eq_true, if_false]
      rcases hgi : env.getIdComposeResp with e | u
      · simp only [hgi]
        exact .inr ⟨e, _, rfl, by simp, by simp⟩
      · simp only [hgi, setTag_self]
        have hscan :
            (∃ s2, (if scan then composeScanStep env c ref cur
                      (setTag ref env.composePulledId s)
                    else (.ok (.proceed ⟨false, none, [], none⟩),
                      setTag ref env.composePulledId s)) = (.ok FlowCont.done, s2) ∧
                terminalCount s2.writes = terminalCount s.writes + 1 ∧
                s2.createdStatus = s.createdStatus) ∨
            (∃ oc s2, (if scan then composeScanStep env c ref cur
                      (setTag ref env.composePulledId s)
                    else (.ok (.proceed ⟨false, none, [], none⟩),
                      setTag ref env.composePulledId s)) = (.ok (.proceed oc), s2) ∧
                terminalCount s2.writes = terminalCount s.writes ∧
                s2.createdStatus = s.createdStatus) ∨
            (∃ e s2, (if scan then composeScanStep env c ref cur
                      (setTag ref env.composePulledId s)
                    else (.ok (.proceed ⟨false, none, [], none⟩),
                      setTag ref env.composePulledId s)) = (.error e, s2) ∧
                terminalCount s2.writes = terminalCount s.writes ∧
                s2.createdStatus = s.createdStatus) := by
          rcases hsb : scan with _ | _
          · refine .inr (.inl ⟨⟨false, none, [], none⟩,
              setTag ref env.composePulledId s, ?_, ?_, ?_⟩)
            · simp
            · simp
            · simp
          · simp only [if_true]
            rcases composeScanStep_tc env c ref cur
                (setTag ref env.composePulledId s) hld hnt with
              ⟨s2, h2, htc, hcs⟩ | ⟨oc, s2, h2, htc, hcs⟩ | ⟨e, s2, h2, htc, hcs⟩
            · exact .inl ⟨s2, h2, by simp at htc; rw [htc], by simp at hcs; rw [hcs]⟩
            · exact .inr (.inl ⟨oc, s2, h2, by simp at htc; rw [htc], by simp at hcs; rw [hcs]⟩)
            · exact .inr (.inr ⟨e, s2, h2, by simp at htc; rw [htc], by simp at hcs; rw [hcs]⟩)
        rcases hscan with ⟨s2, h2, htc, hcs⟩ | ⟨oc, s2, h2, htc, hcs⟩ | ⟨e, s2, h2, htc, hcs⟩
        · rw [h2]
          exact .inl ⟨s2, rfl, htc, hcs⟩
        · rw [h2]
          rcases hup : env.composeUpResp with e | ur
          · exact .inr ⟨e, s2, rfl, htc, hcs⟩
          · simp only [hup]
            rcases hus : ur.success with _ | _
            · refine .inr ⟨(if truthy ur.error then ur.error.getD "" else "docker compose up failed"),
                s2, ?_, htc, hcs⟩
              simp
            · simp only [hus, Bool.not_true, Bool.false_eq_true, if_false]
              rcases hlu : env.lastUpdatedComposeResp with e | u
              · simp only [hlu]
                exact .inr ⟨e, s2, rfl, htc, hcs⟩
              · simp only [hlu, ledgerWrite, hld, sendNotif, hnt]
                exact .inl ⟨_, rfl, by simp [htc], by simp [hcs]⟩
        · rw [h2]
          exact .inr ⟨e, s2, rfl, htc, hcs⟩

/-- The compose path with a healthy ledger and notification sink always
returns normally with exactly one terminal write (its catch converts any
thrown step into the `failed` write plus failure notification). -/
lemma composePath_tc (env : Env) (c : VulnerabilityCriteria) (scan : Bool)
    (ref : ImageRef) (cur : String) (s : WorldState)
    (hld : ∀ n, env.ledgerResp n = .ok ())
    (hnt : ∀ n, env.notifResp n = .ok ()) :
    ∃ s', composePath env c scan ref cur s = (.ok (), s') ∧
      terminalCount s'.writes = terminalCount s.writes + 1 ∧
      s'.createdStatus = s.createdStatus := by
  rcases composeTryBody_tc env c scan ref cur s hld hnt with
    ⟨s1, h1, htc, hcs⟩ | ⟨e, s1, h1, htc, hcs⟩
  · unfold composePath
    rw [h1]
    exact ⟨s1, rfl, htc, hcs⟩
  · unfold composePath
    rw [h1]
    simp only [ledgerWrite, hld, sendNotif, hnt]
    exact ⟨_, rfl, by simp [htc], by simp [hcs]⟩

/-- Outcomes of the orchestrator's guarded body: with a healthy ledger and
notification sink it either returns normally with exactly one terminal
write, or throws to the outer catch with none. -/
lemma tryBody_tc (env : Env) (s : WorldState)
    (hld : ∀ n, env.ledgerResp n = .ok ())
    (hnt : ∀ n, env.notifResp n = .ok ()) :
    (∃ s', tryBody env s = (.ok (), s') ∧
        terminalCount s'.writes = terminalCount s.writes + 1 ∧
        s'.createdStatus = s.createdStatus) ∨
    (∃ e s', tryBody env s = (.error e, s') ∧
        terminalCount s'.writes = terminalCount s.writes ∧
        s'.createdStatus = s.createdStatus) := by
  rcases hl : env.lastCheckedResp with e | u
  · refine .inr ⟨e, s, ?_, rfl, rfl⟩
    unfold tryBody
    simp [hl]
  · rcases hlist : env.listResp with e | c
    · refine .inr ⟨e, note .list s, ?_, by simp, by simp⟩
      unfold tryBody
      simp [hl, hlist]
    · rcases c with _ | cont
      · unfold tryBody
        simp only [hl, hlist, ledgerWrite, hld]
        exact .inl ⟨_, rfl, by simp, by simp⟩
      · rcases hins : env.inspectResp with e | d
        · unfold tryBody
          simp only [hl, hlist, hins]
          exact .inr ⟨e, _, rfl, by simp, by simp⟩
        · rcases himg : d.configImage with _ | ref
          · unfold tryBody
            simp only [hl, hlist, hins, himg, ledgerWrite, hld]
            exact .inl ⟨_, rfl, by simp, by simp⟩
          · rcases hsys : isSystemContainer ref with _ | k
            case some =>
              unfold tryBody
              simp only [hl, hlist, hins, himg, hsys, ledgerWrite, hld]
              exact .inl ⟨_, rfl, by simp, by simp⟩
            case none =>
              rcases hdig : isDigestBasedImage ref with _ | _
              case true =>
                unfold tryBody
                simp only [hl, hlist, hins, himg, hsys, hdig, if_true,
                  ledgerWrite, hld]
                exact .inl ⟨_, rfl, by simp, by simp⟩
              case false =>
                rcases hsc : env.scannerSettingsResp with e | sc
                · unfold tryBody
                  simp only [hl, hlist, hins, himg, hsys, hdig,
                    Bool.false_eq_true, if_false, hsc]
                  exact .inr ⟨e, _, rfl, by simp, by simp⟩
                · rcases hus : env.updateSettingResp with e | us
                  · unfold tryBody
                    simp only [hl, hlist, hins, himg, hsys, hdig,
                      Bool.false_eq_true, if_false, hsc, hus]
                    exact .inr ⟨e, _, rfl, by simp, by simp⟩
                  · rcases hrc : env.registryResp with e | rc
                    · unfold tryBody
                      simp only [hl, hlist, hins, himg, hsys, hdig,
                        Bool.false_eq_true, if_false, hsc, hus, hrc]
                      exact .inr ⟨e, _, rfl, by simp, by simp⟩
                    · rcases hloc : rc.isLocalImage with _ | _
                      case true =>
                        unfold tryBody
                        simp only [hl, hlist, hins, himg, hsys, hdig,
                          Bool.false_eq_true, if_false, hsc, hus, hrc, hloc,
                          if_true, ledgerWrite, hld]
                        exact .inl ⟨_, rfl, by simp, by simp⟩
                      case false =>
                        rcases herr2 : truthy rc.error with _ | _
                        case true =>
                          unfold tryBody
                          simp only [hl, hlist, hins, himg, hsys, hdig,
                            Bool.false_eq_true, if_false, hsc, hus, hrc, hloc,
                            herr2, if_true, ledgerWrite, hld]
                          exact .inl ⟨_, rfl, by simp, by simp⟩
                        case false =>
                          rcases hhu : rc.hasUpdate with _ | _
                          case false =>
                            unfold tryBody
                            simp only [hl, hlist, hins, himg, hsys, hdig,
                              Bool.false_eq_true, if_false, hsc, hus, hrc,
                              hloc, herr2, hhu, Bool.not_false, if_true,
                              ledgerWrite, hld]
                            exact .inl ⟨_, rfl, by simp, by simp⟩
                          case true =>
                            rcases hstk : (truthy d.composeProject &&
                                truthy d.composeService) with _ | _
                            case false =>
                              rcases standaloneFlow_tc env
                                  ((us.bind (fun u => u.vulnerabilityCriteria)).getD .never)
                                  (sc.scanner != "none") ref d.image
                                  (note (.registryCheck ref)
                                    (note (.inspect cont.id) (note .list s)))
                                  hld hnt with
                                ⟨s1, h1, htc, hcs⟩ | ⟨e, s1, h1, htc, hcs⟩
                              · refine .inl ⟨s1, ?_, by simp at htc; rw [htc],
                                  by simp at hcs; rw [hcs]⟩
                                unfold tryBody
                                simp only [hl, hlist, hins, himg, hsys, hdig,
                                  Bool.false_eq_true, if_false, hsc, hus, hrc,
                                  hloc, herr2, hhu, Bool.not_true, hstk]
                                exact h1
                              · refine .inr ⟨e, s1, ?_, by simp at htc; rw [htc],
                                  by simp at hcs; rw [hcs]⟩
                                unfold tryBody
                                simp only [hl, hlist, hins, himg, hsys, hdig,
                                  Bool.false_eq_true, if_false, hsc, hus, hrc,
                                  hloc, herr2, hhu, Bool.not_true, hstk]
                                exact h1
                            case true =>
                              rcases hcf : env.composeFileResp with e | cf
                              · refine .inr ⟨e, note (.registryCheck ref)
                                  (note (.inspect cont.id) (note .list s)), ?_,
                                  by simp, by simp⟩
                                unfold tryBody
                                simp only [hl, hlist, hins, himg, hsys, hdig,
                                  Bool.false_eq_true, if_false, hsc, hus, hrc,
                                  hloc, herr2, hhu, Bool.not_true, hstk, if_true,
                                  hcf]
                              · rcases hcfs : cf.success with _ | _
                                case false =>
                                  rcases standaloneFlow_tc env
                                      ((us.bind (fun u => u.vulnerabilityCriteria)).getD .never)
                                      (sc.scanner != "none") ref d.image
                                      (note (.registryCheck ref)
                                        (note (.inspect cont.id) (note .list s)))
                                      hld hnt with
                                    ⟨s1, h1, htc, hcs⟩ | ⟨e, s1, h1, htc, hcs⟩
                                  · refine .inl ⟨s1, ?_, by simp at htc; rw [htc],
                                      by simp at hcs; rw [hcs]⟩
                                    unfold tryBody
                                    simp only [hl, hlist, hins, himg, hsys, hdig,
                                      Bool.false_eq_true, if_false, hsc, hus,
                                      hrc, hloc, herr2, hhu, Bool.not_true,
                                      hstk, if_true, hcf, hcfs]
                                    exact h1
                                  · refine .inr ⟨e, s1, ?_, by simp at htc; rw [htc],
                                      by simp at hcs; rw [hcs]⟩
                                    unfold tryBody
                                    simp only [hl, hlist, hins, himg, hsys, hdig,
                                      Bool.false_eq_true, if_false, hsc, hus,
                                      hrc, hloc, herr2, hhu, Bool.not_true,
                                      hstk, if_true, hcf, hcfs]
                                    exact h1
                                case true =>
                                  obtain ⟨s1, h1, htc, hcs⟩ := composePath_tc env
                                      ((us.bind (fun u => u.vulnerabilityCriteria)).getD .never)
                                      (sc.scanner != "none") ref d.image
                                      (note (.registryCheck ref)
                                        (note (.inspect cont.id) (note .list s)))
                                      hld hnt
                                  refine .inl ⟨s1, ?_, by simp at htc; rw [htc],
                                    by simp at hcs; rw [hcs]⟩
                                  unfold tryBody
                                  simp only [hl, hlist, hins, himg, hsys, hdig,
                                    Bool.false_eq_true, if_false, hsc, hus, hrc,
                                    hloc, herr2, hhu, Bool.not_true, hstk,
                                    if_true, hcf, hcfs]
                                  exact h1

/-- Master outcome lemma for `runContainerUpdate`: if record creation,
ledger writes and notification sends do not throw, the run never throws
past its boundary, performs exactly one terminal status write, and the
record was created with status `running`. -/
lemma runContainerUpdate_tc (env : Env) (s : WorldState)
    (hc : env.createResp = .ok ())
    (hld : ∀ n, env.ledgerResp n = .ok ())
    (hnt : ∀ n, env.notifResp n = .ok ()) :
    (runContainerUpdate env s).1 = .ok () ∧
    terminalCount (runContainerUpdate env s).2.writes =
      terminalCount s.writes + 1 ∧
    (runContainerUpdate env s).2.createdStatus = some .running := by
  unfold runContainerUpdate ledgerWrite
  simp only [hc, hld]
  rcases tryBody_tc env
      { s with createdStatus := some ExecStatus.running,
               writes := s.writes ++ [none] } hld hnt with
    ⟨s2, h2, htc, hcs⟩ | ⟨e, s2, h2, htc, hcs⟩
  · rw [h2]
    refine ⟨rfl, ?_, ?_⟩
    · rw [htc]
      simp
    · rw [hcs]
  · rw [h2]
    simp only [sendNotif, hnt]
    refine ⟨by simp, ?_, ?_⟩
    · simp [htc]
    · simp [hcs]

/-- Glue for a thrown body: the outer catch appends the terminal `failed`
write and the failure notification to whatever state the body left. -/
lemma runContainerUpdate_of_tryBody_error (env : Env) (s : WorldState)
    (e : Err) (s2 : WorldState)
    (hc : env.createResp = .ok ())
    (hld : ∀ n, env.ledgerResp n = .ok ())
    (hnt : ∀ n, env.notifResp n = .ok ())
    (htb : tryBody env
      { s with createdStatus := some ExecStatus.running,
               writes := s.writes ++ [none] } = (.error e, s2)) :
    (runContainerUpdate env s).2.writes = s2.writes ++ [some .failed] ∧
    (runContainerUpdate env s).2.notifs = s2.notifs ++ [.auto_update_failed] := by
  unfold runContainerUpdate ledgerWrite sendNotif
  simp only [hc, hld, hnt]
  rw [htb]
  constructor <;> simp

/-- A pull failure on the standalone scanning path: the pull catch writes
terminal `failed` and sends no notification. -/
lemma standaloneFlow_pullfail (env : Env) (c : VulnerabilityCriteria)
    (r t : String) (cur : String) (s : WorldState) (msg : Err)
    (hpull : env.pullResp = .error msg)
    (hld : ∀ n, env.ledgerResp n = .ok ()) :
    ∃ s', standaloneFlow env c true (.tagged r t) cur s = (.ok (), s') ∧
      s'.writes = s.writes ++ [some .failed] ∧
      s'.notifs = s.notifs := by
  unfold standaloneFlow stdPullStep stdPullTryBody
  rw [show (true && !isDigestBasedImage (.tagged r t)) = true from rfl]
  simp only [if_true, hpull, ledgerWrite, hld]
  exact ⟨_, rfl, by simp, by simp⟩

/-- A scanner failure on the standalone scanning path: the scan catch (or,
when its own temp-image removal throws, the pull catch) writes terminal
`failed` and sends no notification. -/
lemma standaloneFlow_scanfail (env : Env) (c : VulnerabilityCriteria)
    (r t : String) (cur : String) (s : WorldState) (msg : Err)
    (hpull : env.pullResp = .ok ())
    (hgid : env.getIdStandaloneResp = .ok ())
    (htr : env.tagRestoreResp = .ok ())
    (htt : env.tagTempResp = .ok ())
    (hscan : env.scanNewResp = .error msg)
    (hld : ∀ n, env.ledgerResp n = .ok ()) :
    ∃ s', standaloneFlow env c true (.tagged r t) cur s = (.ok (), s') ∧
      s'.writes = s.writes ++ [some .failed] ∧
      s'.notifs = s.notifs := by
  unfold standaloneFlow stdPullStep stdPullTryBody stdScanStep stdScanTryBody
    scanAndCheckBlock
  rw [show (true && !isDigestBasedImage (.tagged r t)) = true from rfl]
  simp only [if_true, hpull, hgid, setTag_self, htr, htt, hscan]
  rcases hrm : env.removeTempScanErrResp with e2 | u
  · simp only [hrm, ledgerWrite, hld]
    exact ⟨_, rfl, by simp, by simp⟩
  · simp only [hrm, ledgerWrite, hld]
    exact ⟨_, rfl, by simp, by simp⟩

/-- The orchestrator body for a standalone scanning run whose pull throws:
terminal `failed`, no notification. -/
lemma tryBody_pullfail (env : Env) (s : WorldState)
    (cont : ContainerInfo) (d : InspectData) (r t : String)
    (sc : ScannerSettings) (us : Option UpdateSetting) (rc : RegistryCheck)
    (msg : Err)
    (hlast : env.lastCheckedResp = .ok ())
    (hlist : env.listResp = .ok (some cont))
    (hins : env.inspectResp = .ok d)
    (himg : d.configImage = some (.tagged r t))
    (hsys : isSystemContainer (.tagged r t) = none)
    (hsc : env.scannerSettingsResp = .ok sc)
    (hscan : sc.scanner ≠ "none")
    (hus : env.updateSettingResp = .ok us)
    (hrc : env.registryResp = .ok rc)
    (hlocal : rc.isLocalImage = false)
    (herr : truthy rc.error = false)
    (hupd : rc.hasUpdate = true)
    (hstack : (truthy d.composeProject && truthy d.composeService) = false ∨
      ∃ cf, env.composeFileResp = .ok cf ∧ cf.success = false)
    (hpull : env.pullResp = .error msg)
    (hld : ∀ n, env.ledgerResp n = .ok ()) :
    ∃ s', tryBody env s = (.ok (), s') ∧
      s'.writes = s.writes ++ [some .failed] ∧
      s'.notifs = s.notifs := by
  have hbool : (sc.scanner != "none") = true := by simp [hscan]
  obtain ⟨s', hstep, hw, hn⟩ :=
    standaloneFlow_pullfail env
      ((us.bind (fun u => u.vulnerabilityCriteria)).getD .never) r t d.image
      (note (.registryCheck (.tagged r t)) (note (.inspect cont.id) (note .list s)))
      msg hpull hld
  unfold tryBody
  rcases hstack with hstackA | ⟨cf, hcf, hcfs⟩
  · simp only [hlast, hlist, hins, himg, hsys, isDigestBasedImage, hsc, hus,
      hbool, hrc, hlocal, herr, hupd, hstackA, Bool.false_eq_true, if_false,
      Bool.not_false, Bool.not_true]
    rw [hstep]
    refine ⟨s', rfl, by rw [hw]; simp, by rw [hn]; simp⟩
  · simp only [hlast, hlist, hins, himg, hsys, isDigestBasedImage, hsc, hus,
      hbool, hrc, hlocal, herr, hupd, hcf, hcfs, Bool.false_eq_true, if_false,
      Bool.not_false, Bool.not_true]
    split
    · rw [hstep]
      refine ⟨s', rfl, by rw [hw]; simp, by rw [hn]; simp⟩
    · rw [hstep]
      refine ⟨s', rfl, by rw [hw]; simp, by rw [hn]; simp⟩

/-- The orchestrator body for a standalone scanning run whose scan throws:
terminal `failed`, no notification. -/
lemma tryBody_scanfail (env : Env) (s : WorldState)
    (cont : ContainerInfo) (d : InspectData) (r t : String)
    (sc : ScannerSettings) (us : Option UpdateSetting) (rc : RegistryCheck)
    (msg : Err)
    (hlast : env.lastCheckedResp = .ok ())
    (hlist : env.listResp = .ok (some cont))
    (hins : env.inspectResp = .ok d)
    (himg : d.configImage = some (.tagged r t))
    (hsys : isSystemContainer (.tagged r t) = none)
    (hsc : env.scannerSettingsResp = .ok sc)
    (hscan : sc.scanner ≠ "none")
    (hus : env.updateSettingResp = .ok us)
    (hrc : env.registryResp = .ok rc)
    (hlocal : rc.isLocalImage = false)
    (herr : truthy rc.error = false)
    (hupd : rc.hasUpdate = true)
    (hstack : (truthy d.composeProject && truthy d.composeService) = false ∨
      ∃ cf, env.composeFileResp = .ok cf ∧ cf.success = false)
    (hpull : env.pullResp = .ok ())
    (hgid : env.getIdStandaloneResp = .ok ())
    (htr : env.tagRestoreResp = .ok ())
    (htt : env.tagTempResp = .ok ())
    (hscanNew : env.scanNewResp = .error msg)
    (hld : ∀ n, env.ledgerResp n = .ok ()) :
    ∃ s', tryBody env s = (.ok (), s') ∧
      s'.writes = s.writes ++ [some .failed] ∧
      s'.notifs = s.notifs := by
  have hbool : (sc.scanner != "none") = true := by simp [hscan]
  obtain ⟨s', hstep, hw, hn⟩ :=
    standaloneFlow_scanfail env
      ((us.bind (fun u => u.vulnerabilityCriteria)).getD .never) r t d.image
      (note (.registryCheck (.tagged r t)) (note (.inspect cont.id) (note .list s)))
      msg hpull hgid htr htt hscanNew hld
  unfold tryBody
  rcases hstack with hstackA | ⟨cf, hcf, hcfs⟩
  · simp only [hlast, hlist, hins, himg, hsys, isDigestBasedImage, hsc, hus,
      hbool, hrc, hlocal, herr, hupd, hstackA, Bool.false_eq_true, if_false,
      Bool.not_false, Bool.not_true]
    rw [hstep]
    refine ⟨s', rfl, by rw [hw]; simp, by rw [hn]; simp⟩
  · simp only [hlast, hlist, hins, himg, hsys, isDigestBasedImage, hsc, hus,
      hbool, hrc, hlocal, herr, hupd, hcf, hcfs, Bool.false_eq_true, if_false,
      Bool.not_false, Bool.not_true]
    split
    · rw [hstep]
      refine ⟨s', rfl, by rw [hw]; simp, by rw [hn]; simp⟩
    · rw [hstep]
      refine ⟨s', rfl, by rw [hw]; simp, by rw [hn]; simp⟩

/-- C3 (amended).  Provided record creation, ledger writes and notification
sends do not throw, `runUpdate` never throws past its boundary for every
behaviour of the remaining collaborators (runtime client, scanner, compose
subsystem, scan-history store) and performs exactly one terminal status
write per run; every error that reaches the outer catch is captured as a
terminal `failed` write together with a failure notification; failures
handled inside the body — container not found, and pull or scan failures on
the standalone scanning path — are captured as a terminal `failed` write
with no notification. -/
theorem run_never_throws_with_healthy_ledger (env : Env) (s : WorldState)
    (hc : env.createResp = .ok ())
    (hld : ∀ n, env.ledgerResp n = .ok ())
    (hnt : ∀ n, env.notifResp n = .ok ()) :
    (runContainerUpdate env s).1 = .ok () ∧
    terminalCount (runContainerUpdate env s).2.writes =
      terminalCount s.writes + 1 ∧
    (∀ e s2, tryBody env
        { s with createdStatus := some ExecStatus.running,
                 writes := s.writes ++ [none] } = (.error e, s2) →
      (runContainerUpdate env s).2.writes = s2.writes ++ [some .failed] ∧
      (runContainerUpdate env s).2.notifs = s2.notifs ++ [.auto_update_failed]) ∧
    (env.lastCheckedResp = .ok () → env.listResp = .ok none →
      (runContainerUpdate env s).2.writes = s.writes ++ [none, some .failed] ∧
      (runContainerUpdate env s).2.notifs = s.notifs) ∧
    (∀ cont d r t sc us rc msg,
      env.lastCheckedResp = .ok () →
      env.listResp = .ok (some cont) →
      env.inspectResp = .ok d →
      d.configImage = some (.tagged r t) →
      isSystemContainer (.tagged r t) = none →
      env.scannerSettingsResp = .ok sc → sc.scanner ≠ "none" →
      env.updateSettingResp = .ok us →
      env.registryResp = .ok rc → rc.isLocalImage = false →
      truthy rc.error = false → rc.hasUpdate = true →
      ((truthy d.composeProject && truthy d.composeService) = false ∨
        ∃ cf, env.composeFileResp = .ok cf ∧ cf.success = false) →
      env.pullResp = .error msg →
      (runContainerUpdate env s).2.writes = s.writes ++ [none, some .failed] ∧
      (runContainerUpdate env s).2.notifs = s.notifs) ∧
    (∀ cont d r t sc us rc msg,
      env.lastCheckedResp = .ok () →
      env.listResp = .ok (some cont) →
      env.inspectResp = .ok d →
      d.configImage = some (.tagged r t) →
      isSystemContainer (.tagged r t) = none →
      env.scannerSettingsResp = .ok sc → sc.scanner ≠ "none" →
      env.updateSettingResp = .ok us →
      env.registryResp = .ok rc → rc.isLocalImage = false →
      truthy rc.error = false → rc.hasUpdate = true →
      ((truthy d.composeProject && truthy d.composeService) = false ∨
        ∃ cf, env.composeFileResp = .ok cf ∧ cf.success = false) →
      env.pullResp = .ok () →
      env.getIdStandaloneResp = .ok () →
      env.tagRestoreResp = .ok () →
      env.tagTempResp = .ok () →
      env.scanNewResp = .error msg →
      (runContainerUpdate env s).2.writes = s.writes ++ [none, some .failed] ∧
      (runContainerUpdate env s).2.notifs = s.notifs) := by
  refine ⟨(runContainerUpdate_tc env s hc hld hnt).1,
    (runContainerUpdate_tc env s hc hld hnt).2.1, ?_, ?_, ?_, ?_⟩
  · intro e s2 htb
    exact runContainerUpdate_of_tryBody_error env s e s2 hc hld hnt htb
  · intro hlast hlist
    unfold runContainerUpdate tryBody ledgerWrite
    simp [hc, hld, hlast, hlist]
  · intro cont d r t sc us rc msg hlast hlist hins himg hsys hsc hscan hus hrc
      hlocal herr hupd hstack hpull
    obtain ⟨s', hstep, hw, hn⟩ := tryBody_pullfail env
      { s with createdStatus := some ExecStatus.running,
               writes := s.writes ++ [none] }
      cont d r t sc us rc msg hlast hlist hins himg hsys hsc hscan hus hrc
      hlocal herr hupd hstack hpull hld
    have hrun := runContainerUpdate_of_tryBody env s () s' hc hld hstep
    rw [hrun]
    constructor
    · rw [hw]
      simp
    · rw [hn]
  · intro cont d r t sc us rc msg hlast hlist hins himg hsys hsc hscan hus hrc
      hlocal herr hupd hstack hpull hgid htr htt hscanNew
    obtain ⟨s', hstep, hw, hn⟩ := tryBody_scanfail env
      { s with createdStatus := some ExecStatus.running,
               writes := s.writes ++ [none] }
      cont d r t sc us rc msg hlast hlist hins himg hsys hsc hscan hus hrc
      hlocal herr hupd hstack hpull hgid htr htt hscanNew hld
    have hrun := runContainerUpdate_of_tryBody env s () s' hc hld hstep
    rw [hrun]
    constructor
    · rw [hw]
      simp
    · rw [hn]

theorem run_never_throws_with_healthy_ledger_witness :
    ((runContainerUpdate okEnv w0).1 = .ok () ∧
     terminalCount (runContainerUpdate okEnv w0).2.writes =
       terminalCount w0.writes + 1) ∧
    ((runContainerUpdate envNotFound w0).2.writes = [none, some .failed] ∧
     (runContainerUpdate envNotFound w0).2.notifs = []) ∧
    ((runContainerUpdate envPullFail w0).2.writes = [none, some .failed] ∧
     (runContainerUpdate envPullFail w0).2.notifs = []) ∧
    ((runContainerUpdate envScanFail w0).2.writes = [none, some .failed] ∧
     (runContainerUpdate envScanFail w0).2.notifs = []) := by
  have h1 := run_never_throws_with_healthy_ledger okEnv w0 rfl
    (fun _ => rfl) (fun _ => rfl)
  have h2 := run_never_throws_with_healthy_ledger envNotFound w0 rfl
    (fun _ => rfl) (fun _ => rfl)
  have h3 := run_never_throws_with_healthy_ledger envPullFail w0 rfl
    (fun _ => rfl) (fun _ => rfl)
  have h4 := run_never_throws_with_healthy_ledger envScanFail w0 rfl
    (fun _ => rfl) (fun _ => rfl)
  refine ⟨⟨h1.1, h1.2.1⟩, ?_, ?_, ?_⟩
  · have := h2.2.2.2.1 rfl rfl
    simpa [w0] using this
  · have := h3.2.2.2.2.1 ⟨"cid1"⟩ d0 "app" "latest" ⟨"trivy"⟩
      (some ⟨some .any_finding⟩) ⟨true, some "sha:bbb", false, none⟩
      "network unreachable" rfl rfl rfl rfl (by decide) rfl (by decide) rfl
      rfl rfl rfl rfl (.inl rfl) rfl
    simpa [w0] using this
  · have := h4.2.2.2.2.2 ⟨"cid1"⟩ d0 "app" "latest" ⟨"trivy"⟩
      (some ⟨some .any_finding⟩) ⟨true, some "sha:bbb", false, none⟩
      "scanner crashed" rfl rfl rfl rfl (by decide) rfl (by decide) rfl
      rfl rfl rfl rfl (.inl rfl) rfl rfl rfl rfl rfl
    simpa [w0] using this

/-- C3 (counterexample).  When creating the execution record throws, the
error escapes `runUpdate`'s boundary; and a container-not-found failure, a
pull failure and a scan failure are each captured as a terminal `failed`
write with no failure notification — refuting both "never throws for every
behaviour of the persistence collaborator" and "every failure is captured
together with a failure notification". -/
theorem run_throws_past_boundary_cex :
    (runContainerUpdate envBoundary w0).1 = .error "db down" ∧
    ((runContainerUpdate envNotFound w0).2.writes = [none, some .failed] ∧
     (runContainerUpdate envNotFound w0).2.notifs = []) ∧
    ((runContainerUpdate envPullFail w0).2.writes = [none, some .failed] ∧
     (runContainerUpdate envPullFail w0).2.notifs = []) ∧
    ((runContainerUpdate envScanFail w0).2.writes = [none, some .failed] ∧
     (runContainerUpdate envScanFail w0).2.notifs = []) := by
  refine ⟨rfl, ⟨by decide, by decide⟩, ⟨by decide, by decide⟩,
    ⟨by decide, by decide⟩⟩

/-- C4 (amended).  The execution record is created with status `running` at
run start and, provided ledger writes and notification sends do not throw,
receives exactly one terminal status write over the whole run. -/
theorem execution_record_single_terminal_write (env : Env) (s : WorldState)
    (hc : env.createResp = .ok ())
    (hld : ∀ n, env.ledgerResp n = .ok ())
    (hnt : ∀ n, env.notifResp n = .ok ()) :
    (runContainerUpdate env s).2.createdStatus = some .running ∧
    terminalCount (runContainerUpdate env s).2.writes =
      terminalCount s.writes + 1 :=
  ⟨(runContainerUpdate_tc env s hc hld hnt).2.2,
   (runContainerUpdate_tc env s hc hld hnt).2.1⟩

theorem execution_record_single_terminal_write_witness :
    (runContainerUpdate okEnv w0).2.createdStatus = some .running ∧
    terminalCount (runContainerUpdate okEnv w0).2.writes =
      terminalCount w0.writes + 1 :=
  execution_record_single_terminal_write okEnv w0 rfl (fun _ => rfl) (fun _ => rfl)

/-- C4 (counterexample).  When the success notification send throws after
the terminal `success` write, the outer catch performs a second terminal
write (`failed`): the record receives two terminal status writes in one
run, refuting "never more than one" for every collaborator behaviour. -/
theorem second_terminal_write_cex :
    (runContainerUpdate envTwoTerm w0).2.writes =
      [none, some .success, some .failed] ∧
    terminalCount (runContainerUpdate envTwoTerm w0).2.writes = 2 := by
  exact ⟨by decide, by decide⟩

end Dockhand
